import Mathlib

/-!
# Verification of the me-agent policy-gated shopping backend

Shallow embedding of the backend's core logic:

* `backend/app/api/authority.py` — the authority check (`check_authority`)
* `backend/app/core/db.py` — in-memory policy store and audit log
  (`get_policy`, `save_policy`, `add_audit_event`)
* `backend/app/api/policy.py` — policy read/update endpoints with legacy
  category migration
* `backend/app/api/agent.py` — bundle selector (`generate_bundle`), the
  recommendation orchestrator's deterministic parts, memory defaults,
  preference rebalancing, and the feedback learner (`_inc_counts`,
  `_derive_from_items`)
* `backend/app/api/shopify.py` — the static product catalog

Modelling conventions:

* Python `float` money/weight values are modelled as `ℚ`; the repository
  only manipulates decimal literals and 2/3-decimal roundings, which are
  exact in `ℚ`.  Python's banker's rounding (used by `round` and `"%.2f"`
  formatting) is modelled by `halfEven` below.
* Python dicts are modelled as insertion-ordered association lists
  (`List (String × _)`), with first-occurrence lookup and in-place update,
  which matches dict semantics when keys are unique (as they always are in
  a dict).
* Python's stable `sorted` is modelled by `List.insertionSort`, which is
  stable under the "earlier element wins ties" convention used below.
* `str.strip` / `str.lower` are modelled for the ASCII data this backend
  manipulates.
* Mutation of the shared in-memory store is modelled by explicit state
  passing over a `Db` record.  `policy.model_dump()` produces a fresh
  dict in the source, so the stored audit snapshot is a value, not a
  reference; the embedding's value semantics reflects this.
-/

/-! ## Python string primitives -/

/-- Default whitespace recognised by Python's `str.strip` (ASCII subset). -/
def isPySpace (c : Char) : Bool :=
  c == ' ' || c == '\t' || c == '\n' || c == '\r' || c == '\x0b' || c == '\x0c'

/-- ASCII lower-casing of one character, as Python's `str.lower` acts on the
ASCII catalog data of this repository. -/
def pyLowerChar (c : Char) : Char :=
  if 65 ≤ c.toNat ∧ c.toNat ≤ 90 then Char.ofNat (c.toNat + 32) else c

/-- Python `s.strip()` (no argument form) on the character list. -/
def pyStripChars (l : List Char) : List Char :=
  ((l.dropWhile isPySpace).reverse.dropWhile isPySpace).reverse

/-- Python `s.strip()`. -/
def pyStrip (s : String) : String :=
  String.mk (pyStripChars s.data)

/-- Python `s.lower()` (ASCII). -/
def pyLower (s : String) : String :=
  String.mk (s.data.map pyLowerChar)

/-- `_norm` in `agent.py` / the per-category normalisation in `policy.py`:
`(s or "").strip().lower()`. -/
def pyNorm (s : String) : String :=
  pyLower (pyStrip s)

/-! ## Python numeric primitives -/

/-- Round a rational to the nearest integer, ties to even — Python's
`round` (banker's rounding) on the decimal idealisation of floats. -/
def halfEven (q : ℚ) : ℤ :=
  let f := ⌊q⌋
  let r := q - (f : ℚ)
  if r < 1/2 then f
  else if (1:ℚ)/2 < r then f + 1
  else if 2 ∣ f then f else f + 1

/-- Python `round(q, 2)`. -/
def pyRound2 (q : ℚ) : ℚ := (halfEven (q * 100) : ℚ) / 100

/-- Python `round(q, 3)`. -/
def pyRound3 (q : ℚ) : ℚ := (halfEven (q * 1000) : ℚ) / 1000

/-- Render a natural number, zero-padded to two digits. -/
def pad2 (n : ℕ) : String :=
  if n < 10 then "0" ++ toString n else toString n

/-- Python `f"{q:.2f}"` for the non-negative amounts handled by the policy
layer (schemas enforce `ge=0`): fixed-point rendering with two decimals
after banker's rounding at the cent. -/
def fmt2 (q : ℚ) : String :=
  let cents : ℕ := (halfEven (q * 100)).toNat
  toString (cents / 100) ++ "." ++ pad2 (cents % 100)

/-- Python set equality `set(a) == set(b)` for string lists. -/
def sameSet (a b : List String) : Bool :=
  a.all (fun x => b.contains x) && b.all (fun x => a.contains x)

/-- Python `", ".join(l)`. -/
def joinComma (l : List String) : String :=
  String.intercalate ", " l

/-! ## Data model: policies and authority checks (`schemas/policy.py`,
`schemas/authority.py`) -/

/-- `AgentPolicy` (`schemas/policy.py`). -/
structure AgentPolicy where
  maxSpend : ℚ
  allowedCategories : List String
  agentEnabled : Bool
  requireConfirm : Bool
deriving Repr, DecidableEq

/-- `CartItem` (`schemas/authority.py`). -/
structure CartItem where
  id : String
  title : String
  price : ℚ
  category : String
  qty : ℕ
deriving Repr, DecidableEq

/-- `AuthorityCheckRequest` (`schemas/authority.py`); `action` is one of
`cartCreate`, `recommendBundle`, `checkoutStart`, `addToCart`. -/
structure AuthorityCheckRequest where
  action : String
  cartTotal : Option ℚ
  categories : Option (List String)
  items : Option (List CartItem)
deriving Repr, DecidableEq

/-- The stored per-user policy document written by `save_policy`
(`core/db.py`): the four policy fields plus `updatedAt`. -/
structure PolicyDoc where
  maxSpend : ℚ
  allowedCategories : List String
  agentEnabled : Bool
  requireConfirm : Bool
  updatedAt : Option String
deriving Repr, DecidableEq

/-- `DEFAULT_POLICY` in `core/db.py`. -/
def dbDefaultPolicy : PolicyDoc :=
  { maxSpend := 150
    allowedCategories := ["office", "electronics"]
    agentEnabled := true
    requireConfirm := true
    updatedAt := none }

/-- An audit event as assembled by `add_audit_event` (`core/db.py`). -/
structure AuditEvent where
  id : String
  userId : String
  ts : String
  actor : String
  action : String
  decision : String
  reason : String
  policySnapshot : AgentPolicy
  metaCartTotal : Option ℚ
  metaCategories : Option (List String)
  metaItemCount : ℕ
deriving Repr, DecidableEq

/-- The in-memory fallback store of `core/db.py` (`_memory_store`), restricted
to the collections the verified endpoints touch. -/
structure Db where
  policies : String → Option PolicyDoc
  auditLogs : String → List AuditEvent

/-- `get_policy` (`core/db.py`): stored policy or the default document. -/
def getPolicy (db : Db) (userId : String) : PolicyDoc :=
  (db.policies userId).getD dbDefaultPolicy

/-- `save_policy` (`core/db.py`): writes the four policy fields plus a fresh
`updatedAt` timestamp (supplied by the caller's clock). -/
def savePolicy (db : Db) (userId : String) (p : PolicyDoc) (updatedAt : String) :
    PolicyDoc × Db :=
  let doc : PolicyDoc := { p with updatedAt := some updatedAt }
  (doc, { db with policies := fun u => if u = userId then some doc else db.policies u })

/-- `add_audit_event` (`core/db.py`), in-memory branch: appends the event to
the user's log. -/
def addAuditEvent (db : Db) (userId : String) (e : AuditEvent) : AuditEvent × Db :=
  (e, { db with auditLogs := fun u =>
          if u = userId then db.auditLogs u ++ [e] else db.auditLogs u })

/-- `AuthorityCheckResponse` (`schemas/authority.py`). -/
structure AuthorityCheckResponse where
  decision : String
  reason : String
  policySnapshot : AgentPolicy
  blockedItems : Option (List CartItem)
  auditEventId : String
deriving Repr, DecidableEq

/-- A decision in progress: decision string, reason, blocked items. -/
abbrev DecisionState := String × String × List CartItem

/-- Rule 3b of `check_authority` (`api/authority.py` lines 83-91): per-item
category violations.  Reached only when rules 1-3 did not fire. -/
def itemsStep (policy : AgentPolicy) (request : AuthorityCheckRequest) : DecisionState :=
  match request.items with
  | some items =>
    if items ≠ [] then
      let blocked := items.filter (fun it => !policy.allowedCategories.contains it.category)
      match blocked with
      | [] => ("ALLOW", "Action permitted by policy", [])
      | _ :: _ =>
        ("BLOCK",
         "Items from unauthorized categories blocked: " ++
           joinComma ((blocked.take 3).map CartItem.title) ++
           ". Allowed categories: " ++ joinComma policy.allowedCategories ++ ".",
         blocked)
    else ("ALLOW", "Action permitted by policy", [])
  | none => ("ALLOW", "Action permitted by policy", [])

/-- Rule 3 of `check_authority` (`api/authority.py` lines 74-78): explicit
category list (a non-empty `categories` field takes precedence over
`items`). -/
def categoriesStep (policy : AgentPolicy) (request : AuthorityCheckRequest) : DecisionState :=
  match request.categories with
  | some cats =>
    if cats ≠ [] then
      let unauthorized := cats.filter (fun cat => !policy.allowedCategories.contains cat)
      match unauthorized with
      | [] => ("ALLOW", "Action permitted by policy", [])
      | first :: _ =>
        ("BLOCK",
         "Category '" ++ first ++ "' is not in your allowed categories: " ++
           joinComma policy.allowedCategories ++ ". Update your policy to include it.",
         [])
    else itemsStep policy request
  | none => itemsStep policy request

/-- Rules 1-3b of `check_authority` (`api/authority.py` lines 52-91). -/
def baseDecision (policy : AgentPolicy) (request : AuthorityCheckRequest) : DecisionState :=
  if !policy.agentEnabled then
    ("BLOCK",
     "Agent is disabled. Enable it in your policy settings to allow autonomous actions.",
     [])
  else
    match request.cartTotal with
    | some ct =>
      if policy.maxSpend < ct then
        ("BLOCK",
         "Cart total $" ++ fmt2 ct ++ " exceeds your spending limit of $" ++
           fmt2 policy.maxSpend ++ ". Reduce items or increase your limit.",
         [])
      else categoriesStep policy request
    | none => categoriesStep policy request

/-- Rule 4 of `check_authority` (`api/authority.py` lines 96-98): checkout
confirmation, applied to a still-ALLOW outcome. -/
def confirmStep (policy : AgentPolicy) (request : AuthorityCheckRequest)
    (prev : DecisionState) : DecisionState :=
  if prev.1 = "ALLOW" ∧ policy.requireConfirm ∧ request.action = "checkoutStart" then
    ("BLOCK",
     "Checkout requires your explicit confirmation. Click the checkout button to proceed.",
     prev.2.2)
  else prev

/-- The full decision/reason/blocked-items computation of `check_authority`
(`api/authority.py` lines 52-98), before the audit side effect. -/
def authorityDecision (policy : AgentPolicy) (request : AuthorityCheckRequest) : DecisionState :=
  confirmStep policy request (baseDecision policy request)

/-- The policy object `check_authority` builds from the stored document
(`api/authority.py` lines 44-50). -/
def policyOfDoc (d : PolicyDoc) : AgentPolicy :=
  { maxSpend := d.maxSpend
    allowedCategories := d.allowedCategories
    agentEnabled := d.agentEnabled
    requireConfirm := d.requireConfirm }

/-- `check_authority` (`api/authority.py`): evaluates the request against the
user's policy, appends exactly one audit event, and returns the response.
The fresh event id and timestamp (uuid / `datetime.utcnow`) are supplied by
the caller's environment. -/
def checkAuthority (db : Db) (userId : String) (request : AuthorityCheckRequest)
    (eventId ts : String) : AuthorityCheckResponse × Db :=
  let policy := policyOfDoc (getPolicy db userId)
  let dr := authorityDecision policy request
  let event : AuditEvent :=
    { id := eventId
      userId := userId
      ts := ts
      actor := "agent"
      action := request.action
      decision := dr.1
      reason := dr.2.1
      policySnapshot := policy
      metaCartTotal := request.cartTotal
      metaCategories := request.categories
      metaItemCount := ((request.items).getD []).length }
  let (_, db') := addAuditEvent db userId event
  ({ decision := dr.1
     reason := dr.2.1
     policySnapshot := policy
     blockedItems := if dr.2.2 ≠ [] then some dr.2.2 else none
     auditEventId := eventId },
   db')

/-! ## Policy endpoints (`api/policy.py`) -/

/-- `ALL_ALLOWED_CATEGORIES` (`api/policy.py`). -/
def ALL_ALLOWED_CATEGORIES : List String :=
  ["office", "electronics", "clothing", "home", "sports", "books", "beauty",
   "food", "accessories", "lifestyle", "fashion", "grocery", "fitness",
   "entertainment", "wellness", "smart_home", "construction"]

/-- `LEGACY_CATEGORY_SETS` (`api/policy.py`). -/
def LEGACY_CATEGORY_SETS : List (List String) :=
  [["office"],
   ["office", "electronics"],
   ["office", "electronics", "clothing", "home", "sports", "books", "beauty", "food"]]

/-- `_should_expand_categories` (`api/policy.py`): empty, or set-equal to one
of the legacy defaults. -/
def shouldExpandCategories (categories : List String) : Bool :=
  if categories.isEmpty then true
  else LEGACY_CATEGORY_SETS.any (fun s => sameSet categories s)

/-- `_normalize_categories` (`api/policy.py`): strip/lower each entry,
dropping empties (duplicates and order are preserved). -/
def normalizeCategories (categories : List String) : List String :=
  categories.filterMap fun cat =>
    if pyNorm cat = "" then none else some (pyNorm cat)

/-- `PolicyUpdateRequest` (`schemas/policy.py`). -/
structure PolicyUpdateRequest where
  maxSpend : Option ℚ
  allowedCategories : Option (List String)
  agentEnabled : Option Bool
  requireConfirm : Option Bool
deriving Repr, DecidableEq

/-- `PolicyResponse` (`schemas/policy.py`). -/
structure PolicyResponse where
  userId : String
  policy : AgentPolicy
  updatedAt : Option String
deriving Repr, DecidableEq

/-- An HTTP 4xx raised by an endpoint (`HTTPException`). -/
structure HttpError where
  statusCode : ℕ
  detail : String
deriving Repr, DecidableEq

/-- `get_user_policy` (`api/policy.py` GET `/policy`): reads the stored
policy, auto-migrates legacy category defaults to the full selectable list
(persisting the migration), and returns the normalized policy. -/
def getUserPolicy (db : Db) (userId : String) (updatedAt : String) :
    PolicyResponse × Db :=
  let policyData := getPolicy db userId
  let normalizedAllowed := normalizeCategories policyData.allowedCategories
  let (policyData, db) :=
    if shouldExpandCategories normalizedAllowed then
      let migrated : PolicyDoc := { policyData with allowedCategories := ALL_ALLOWED_CATEGORIES }
      let (saved, db') := savePolicy db userId migrated updatedAt
      (saved, db')
    else (policyData, db)
  let normalized := normalizeCategories policyData.allowedCategories
  let policy : AgentPolicy :=
    { maxSpend := policyData.maxSpend
      allowedCategories := if normalized.isEmpty then ALL_ALLOWED_CATEGORIES else normalized
      agentEnabled := policyData.agentEnabled
      requireConfirm := policyData.requireConfirm }
  ({ userId := userId, policy := policy, updatedAt := policyData.updatedAt }, db)

/-- `update_user_policy` (`api/policy.py` POST `/policy`): merges the partial
update onto the current policy, validates, saves, and echoes the saved
policy. -/
def updateUserPolicy (db : Db) (userId : String) (update : PolicyUpdateRequest)
    (updatedAt : String) : Except HttpError (PolicyResponse × Db) :=
  let current := getPolicy db userId
  let allowedCategories :=
    match update.allowedCategories with
    | some cats => normalizeCategories cats
    | none => normalizeCategories current.allowedCategories
  let newPolicy : PolicyDoc :=
    { maxSpend := update.maxSpend.getD current.maxSpend
      allowedCategories :=
        if allowedCategories.isEmpty then ALL_ALLOWED_CATEGORIES else allowedCategories
      agentEnabled := update.agentEnabled.getD current.agentEnabled
      requireConfirm := update.requireConfirm.getD current.requireConfirm
      updatedAt := none }
  if newPolicy.maxSpend < 0 then
    .error { statusCode := 400, detail := "maxSpend must be non-negative" }
  else if !(newPolicy.allowedCategories.all (fun c => ALL_ALLOWED_CATEGORIES.contains c)) then
    .error { statusCode := 400, detail := "Invalid categories" }
  else
    let (saved, db') := savePolicy db userId newPolicy updatedAt
    .ok ({ userId := userId
           policy :=
             { maxSpend := saved.maxSpend
               allowedCategories := saved.allowedCategories
               agentEnabled := saved.agentEnabled
               requireConfirm := saved.requireConfirm }
           updatedAt := saved.updatedAt }, db')

/-! ## Normalisation lemmas -/

theorem char_toNat_ofNat (n : ℕ) (h : n.isValidChar) : (Char.ofNat n).toNat = n := by
  unfold Char.ofNat
  rw [dif_pos h]
  rfl

theorem pyLowerChar_idem (c : Char) : pyLowerChar (pyLowerChar c) = pyLowerChar c := by
  unfold pyLowerChar
  by_cases h : 65 ≤ c.toNat ∧ c.toNat ≤ 90
  · rw [if_pos h]
    have hv : (c.toNat + 32).isValidChar := by
      left
      omega
    have ht : (Char.ofNat (c.toNat + 32)).toNat = c.toNat + 32 := char_toNat_ofNat _ hv
    rw [if_neg]
    omega
  · rw [if_neg h, if_neg h]

theorem isPySpace_true_toNat_le (c : Char) (h : isPySpace c = true) : c.toNat ≤ 32 := by
  unfold isPySpace at h
  simp only [Bool.or_eq_true, beq_iff_eq] at h
  rcases h with ((((h | h) | h) | h) | h) | h <;> subst h <;> decide

theorem isPySpace_pyLowerChar (c : Char) : isPySpace (pyLowerChar c) = isPySpace c := by
  unfold pyLowerChar
  by_cases h : 65 ≤ c.toNat ∧ c.toNat ≤ 90
  · rw [if_pos h]
    have hv : (c.toNat + 32).isValidChar := by
      left
      omega
    have ht : (Char.ofNat (c.toNat + 32)).toNat = c.toNat + 32 := char_toNat_ofNat _ hv
    have hc : isPySpace c = false := by
      cases hsp : isPySpace c
      · rfl
      · have := isPySpace_true_toNat_le c hsp
        omega
    have hl : isPySpace (Char.ofNat (c.toNat + 32)) = false := by
      cases hsp : isPySpace (Char.ofNat (c.toNat + 32))
      · rfl
      · have := isPySpace_true_toNat_le _ hsp
        rw [ht] at this
        omega
    rw [hc, hl]
  · rw [if_neg h]

theorem dropWhile_dropWhile {α : Type} (p : α → Bool) (l : List α) :
    (l.dropWhile p).dropWhile p = l.dropWhile p := by
  induction l with
  | nil => rfl
  | cons a t ih =>
    by_cases h : p a
    · simp [List.dropWhile_cons, h, ih]
    · simp [List.dropWhile_cons, h]

theorem dropWhile_getLast?_eq {α : Type} (p : α → Bool) (l : List α)
    (h : l.dropWhile p ≠ []) : (l.dropWhile p).getLast? = l.getLast? := by
  conv_rhs => rw [← List.takeWhile_append_dropWhile p l]
  rw [List.getLast?_append]
  cases hd : (l.dropWhile p).getLast? with
  | none => exact absurd (List.getLast?_eq_none_iff.mp hd) h
  | some a => simp [Option.or]

theorem dropWhile_eq_self_of_head {α : Type} (p : α → Bool) (l : List α)
    (h : ∀ a, l.head? = some a → p a = false) : l.dropWhile p = l := by
  cases l with
  | nil => rfl
  | cons a t =>
    have := h a rfl
    simp [List.dropWhile_cons, this]

theorem head?_dropWhile_false {α : Type} (p : α → Bool) (l : List α) (a : α)
    (h : (l.dropWhile p).head? = some a) : p a = false := by
  have hx := List.head?_dropWhile_not p l
  rw [h] at hx
  exact hx

theorem pyStripChars_idem (l : List Char) : pyStripChars (pyStripChars l) = pyStripChars l := by
  have hstep : (pyStripChars l).dropWhile isPySpace = pyStripChars l := by
    apply dropWhile_eq_self_of_head
    intro a ha
    rw [show pyStripChars l
          = ((l.dropWhile isPySpace).reverse.dropWhile isPySpace).reverse from rfl] at ha
    rw [List.head?_reverse] at ha
    have hnne : (l.dropWhile isPySpace).reverse.dropWhile isPySpace ≠ [] := by
      intro h0
      rw [h0] at ha
      simp at ha
    rw [dropWhile_getLast?_eq _ _ hnne, List.getLast?_reverse] at ha
    exact head?_dropWhile_false isPySpace l a ha
  show (((pyStripChars l).dropWhile isPySpace).reverse.dropWhile isPySpace).reverse
        = pyStripChars l
  rw [hstep]
  rw [show pyStripChars l
        = ((l.dropWhile isPySpace).reverse.dropWhile isPySpace).reverse from rfl]
  rw [List.reverse_reverse, dropWhile_dropWhile]

theorem pyStripChars_map_lower (l : List Char) :
    pyStripChars (l.map pyLowerChar) = (pyStripChars l).map pyLowerChar := by
  unfold pyStripChars
  have hp : (isPySpace ∘ pyLowerChar) = isPySpace := funext isPySpace_pyLowerChar
  rw [List.dropWhile_map, hp, ← List.map_reverse, List.dropWhile_map, hp, ← List.map_reverse]

theorem pyStrip_pyLower_comm (s : String) : pyStrip (pyLower s) = pyLower (pyStrip s) :=
  String.ext (pyStripChars_map_lower s.data)

theorem pyStrip_idem (s : String) : pyStrip (pyStrip s) = pyStrip s := by
  apply String.ext
  exact pyStripChars_idem s.data

theorem pyLower_idem (s : String) : pyLower (pyLower s) = pyLower s := by
  apply String.ext
  show (s.data.map pyLowerChar).map pyLowerChar = s.data.map pyLowerChar
  rw [List.map_map]
  congr 1
  funext c
  exact pyLowerChar_idem c

theorem pyNorm_idem (s : String) : pyNorm (pyNorm s) = pyNorm s := by
  unfold pyNorm
  rw [pyStrip_pyLower_comm, pyStrip_idem, pyLower_idem]

theorem normalizeCategories_idem (cats : List String) :
    normalizeCategories (normalizeCategories cats) = normalizeCategories cats := by
  unfold normalizeCategories
  induction cats with
  | nil => rfl
  | cons c t ih =>
    by_cases h : pyNorm c = ""
    · rw [List.filterMap_cons_none (by simp [h])]
      exact ih
    · simp only [List.filterMap_cons, pyNorm_idem, if_neg h]
      rw [ih]

theorem halfEven_intCast (n : ℤ) : halfEven (n : ℚ) = n := by
  unfold halfEven
  simp only [Int.floor_intCast, sub_self]
  norm_num

/-! ## Claim theorems: authority engine -/

/-- A store with no saved policies and empty audit logs. -/
def emptyDb : Db :=
  { policies := fun _ => none, auditLogs := fun _ => [] }

/-- C1: every `check_authority` call appends exactly one audit event to the
caller's log — on ALLOW and BLOCK paths alike — whose stored
`policySnapshot` is the policy value used for the decision; and saving any
later policy mutation leaves the audit log (hence the stored snapshot)
unchanged. -/
theorem checkAuthority_audits_once_snapshot_isolated
    (db : Db) (userId : String) (request : AuthorityCheckRequest)
    (eventId ts updatedAt : String) (p' : PolicyDoc) :
    ((checkAuthority db userId request eventId ts).2.auditLogs userId
        = db.auditLogs userId ++
          [{ id := eventId
             userId := userId
             ts := ts
             actor := "agent"
             action := request.action
             decision := (checkAuthority db userId request eventId ts).1.decision
             reason := (checkAuthority db userId request eventId ts).1.reason
             policySnapshot := policyOfDoc (getPolicy db userId)
             metaCartTotal := request.cartTotal
             metaCategories := request.categories
             metaItemCount := (request.items.getD []).length }]) ∧
    ((checkAuthority db userId request eventId ts).2.auditLogs userId).length
        = (db.auditLogs userId).length + 1 ∧
    (∀ u, u ≠ userId →
      (checkAuthority db userId request eventId ts).2.auditLogs u = db.auditLogs u) ∧
    ((savePolicy (checkAuthority db userId request eventId ts).2 userId p' updatedAt).2.auditLogs
        = (checkAuthority db userId request eventId ts).2.auditLogs) := by
  refine ⟨?_, ?_, ?_, ?_⟩
  · simp [checkAuthority, addAuditEvent]
  · simp [checkAuthority, addAuditEvent]
  · intro u hu
    simp [checkAuthority, addAuditEvent, hu]
  · rfl

/-- Request used to witness the audit/snapshot claim. -/
def reqC1 : AuthorityCheckRequest :=
  { action := "addToCart", cartTotal := some 10, categories := some ["office"], items := none }

/-- Witness for C1 at a concrete store and request: the log grows from zero
to one event, another user's log is untouched, and a later policy save does
not change the log. -/
theorem checkAuthority_audits_once_snapshot_isolated_witness :
    ((checkAuthority emptyDb "demo-user-1" reqC1 "evt_1" "T0").2.auditLogs "demo-user-1").length = 1 ∧
    (checkAuthority emptyDb "demo-user-1" reqC1 "evt_1" "T0").2.auditLogs "someone-else" = [] ∧
    ((savePolicy (checkAuthority emptyDb "demo-user-1" reqC1 "evt_1" "T0").2 "demo-user-1"
        { dbDefaultPolicy with maxSpend := 9999 } "T1").2.auditLogs
      = (checkAuthority emptyDb "demo-user-1" reqC1 "evt_1" "T0").2.auditLogs) := by
  obtain ⟨h1, h2, h3, h4⟩ :=
    checkAuthority_audits_once_snapshot_isolated emptyDb "demo-user-1" reqC1 "evt_1" "T0" "T1"
      { dbDefaultPolicy with maxSpend := 9999 }
  refine ⟨?_, ?_, h4⟩
  · rw [h2]
    rfl
  · exact h3 "someone-else" (by decide)

/-- C3: with the agent enabled, a provided cart total strictly above the
spending limit yields BLOCK, and the reason embeds both amounts formatted
to two decimals. -/
theorem checkAuthority_overbudget_blocks_with_amounts
    (db : Db) (userId : String) (request : AuthorityCheckRequest) (eventId ts : String) (ct : ℚ)
    (henabled : (policyOfDoc (getPolicy db userId)).agentEnabled = true)
    (hct : request.cartTotal = some ct)
    (hover : (policyOfDoc (getPolicy db userId)).maxSpend < ct) :
    (checkAuthority db userId request eventId ts).1.decision = "BLOCK" ∧
    (∃ x y, (checkAuthority db userId request eventId ts).1.reason = x ++ fmt2 ct ++ y) ∧
    (∃ x y, (checkAuthority db userId request eventId ts).1.reason
        = x ++ fmt2 (policyOfDoc (getPolicy db userId)).maxSpend ++ y) := by
  have hbase : baseDecision (policyOfDoc (getPolicy db userId)) request
      = ("BLOCK",
         "Cart total $" ++ fmt2 ct ++ " exceeds your spending limit of $" ++
           fmt2 (policyOfDoc (getPolicy db userId)).maxSpend ++
           ". Reduce items or increase your limit.",
         []) := by
    unfold baseDecision
    rw [henabled, hct]
    simp [hover]
  have hdec : authorityDecision (policyOfDoc (getPolicy db userId)) request
      = ("BLOCK",
         "Cart total $" ++ fmt2 ct ++ " exceeds your spending limit of $" ++
           fmt2 (policyOfDoc (getPolicy db userId)).maxSpend ++
           ". Reduce items or increase your limit.",
         []) := by
    unfold authorityDecision
    rw [hbase]
    unfold confirmStep
    simp
  refine ⟨?_, ?_, ?_⟩
  · simp [checkAuthority, hdec]
  · refine ⟨"Cart total $",
      " exceeds your spending limit of $" ++
        fmt2 (policyOfDoc (getPolicy db userId)).maxSpend ++
        ". Reduce items or increase your limit.", ?_⟩
    simp [checkAuthority, hdec, String.append_assoc]
  · refine ⟨"Cart total $" ++ fmt2 ct ++ " exceeds your spending limit of $",
      ". Reduce items or increase your limit.", ?_⟩
    simp [checkAuthority, hdec, String.append_assoc]

/-- Request used to witness the over-budget claim: cart total 200 against the
default 150 limit. -/
def reqC3 : AuthorityCheckRequest :=
  { action := "addToCart", cartTotal := some 200, categories := none, items := none }

/-- Witness for C3: at cartTotal 200 and maxSpend 150, the decision is BLOCK
and the reason contains the literals "200.00" and "150.00". -/
theorem checkAuthority_overbudget_blocks_with_amounts_witness :
    (checkAuthority emptyDb "demo-user-1" reqC3 "evt_1" "T0").1.decision = "BLOCK" ∧
    (∃ x y, (checkAuthority emptyDb "demo-user-1" reqC3 "evt_1" "T0").1.reason
        = x ++ "200.00" ++ y) ∧
    (∃ x y, (checkAuthority emptyDb "demo-user-1" reqC3 "evt_1" "T0").1.reason
        = x ++ "150.00" ++ y) := by
  have h := checkAuthority_overbudget_blocks_with_amounts emptyDb "demo-user-1" reqC3
    "evt_1" "T0" 200 rfl rfl (by norm_num [policyOfDoc, getPolicy, emptyDb, dbDefaultPolicy])
  have h200 : fmt2 200 = "200.00" := by
    unfold fmt2
    rw [show ((200 : ℚ) * 100) = ((20000 : ℤ) : ℚ) by norm_num, halfEven_intCast]
    decide
  have h150 : fmt2 (policyOfDoc (getPolicy emptyDb "demo-user-1")).maxSpend = "150.00" := by
    unfold fmt2
    rw [show ((policyOfDoc (getPolicy emptyDb "demo-user-1")).maxSpend * 100)
          = ((15000 : ℤ) : ℚ) by norm_num [policyOfDoc, getPolicy, emptyDb, dbDefaultPolicy],
        halfEven_intCast]
    decide
  rw [h200] at h
  rw [h150] at h
  exact h

/-- C4: with `requireConfirm` set, a `checkoutStart` check with no budget and
no category violation is always BLOCKed; when the agent is enabled the
reason is the explicit-confirmation message. -/
theorem checkAuthority_checkoutStart_confirm_blocks
    (db : Db) (userId : String) (request : AuthorityCheckRequest) (eventId ts : String)
    (hconf : (policyOfDoc (getPolicy db userId)).requireConfirm = true)
    (haction : request.action = "checkoutStart")
    (hbudget : ∀ ct, request.cartTotal = some ct →
      ct ≤ (policyOfDoc (getPolicy db userId)).maxSpend)
    (hcats : ∀ cs, request.categories = some cs →
      ∀ c ∈ cs, c ∈ (policyOfDoc (getPolicy db userId)).allowedCategories)
    (hitems : ∀ its, request.items = some its →
      ∀ it ∈ its, it.category ∈ (policyOfDoc (getPolicy db userId)).allowedCategories) :
    (checkAuthority db userId request eventId ts).1.decision = "BLOCK" ∧
    ((policyOfDoc (getPolicy db userId)).agentEnabled = true →
      (checkAuthority db userId request eventId ts).1.reason
        = "Checkout requires your explicit confirmation. Click the checkout button to proceed.") := by
  have hitemsStep : itemsStep (policyOfDoc (getPolicy db userId)) request
      = ("ALLOW", "Action permitted by policy", []) := by
    unfold itemsStep
    cases hi : request.items with
    | none => rfl
    | some its =>
      by_cases hne : its = []
      · simp [hne]
      · have hfilter : its.filter
            (fun it => !(policyOfDoc (getPolicy db userId)).allowedCategories.contains it.category)
            = [] := by
          rw [List.filter_eq_nil_iff]
          intro it hmem
          have := hitems its hi it hmem
          simp [this]
        simp only [if_pos (by simpa using hne : its ≠ [])]
        rw [hfilter]
  have hcatsStep : categoriesStep (policyOfDoc (getPolicy db userId)) request
      = ("ALLOW", "Action permitted by policy", []) := by
    unfold categoriesStep
    cases hc : request.categories with
    | none => exact hitemsStep
    | some cs =>
      by_cases hne : cs = []
      · simp [hne, hitemsStep]
      · have hfilter : cs.filter
            (fun cat => !(policyOfDoc (getPolicy db userId)).allowedCategories.contains cat)
            = [] := by
          rw [List.filter_eq_nil_iff]
          intro cat hmem
          have := hcats cs hc cat hmem
          simp [this]
        simp only [if_pos (by simpa using hne : cs ≠ [])]
        rw [hfilter]
  rcases Bool.eq_false_or_eq_true (policyOfDoc (getPolicy db userId)).agentEnabled with hen | hen
  case inr =>
    have hbase : baseDecision (policyOfDoc (getPolicy db userId)) request
        = ("BLOCK",
           "Agent is disabled. Enable it in your policy settings to allow autonomous actions.",
           []) := by
      unfold baseDecision
      rw [hen]
      rfl
    constructor
    · simp [checkAuthority, authorityDecision, hbase, confirmStep]
    · intro h
      rw [h] at hen
      cases hen
  case inl =>
    have hbase : baseDecision (policyOfDoc (getPolicy db userId)) request
        = ("ALLOW", "Action permitted by policy", []) := by
      unfold baseDecision
      rw [hen]
      cases hct : request.cartTotal with
      | none => simpa using hcatsStep
      | some ct =>
        have := hbudget ct hct
        simp only [Bool.not_true, Bool.false_eq_true, if_false]
        rw [if_neg (by exact not_lt.mpr this)]
        exact hcatsStep
    have hdec : authorityDecision (policyOfDoc (getPolicy db userId)) request
        = ("BLOCK",
           "Checkout requires your explicit confirmation. Click the checkout button to proceed.",
           []) := by
      unfold authorityDecision confirmStep
      rw [hbase]
      simp [hconf, haction]
    constructor
    · simp [checkAuthority, hdec]
    · intro _
      simp [checkAuthority, hdec]

/-- Request used to witness the confirmation claim: an in-budget, in-category
checkout start. -/
def reqC4 : AuthorityCheckRequest :=
  { action := "checkoutStart", cartTotal := some 50, categories := some ["office"], items := none }

/-- Witness for C4 at the default policy (requireConfirm on, agent enabled):
the checkout is blocked with the confirmation message. -/
theorem checkAuthority_checkoutStart_confirm_blocks_witness :
    (checkAuthority emptyDb "demo-user-1" reqC4 "evt_1" "T0").1.decision = "BLOCK" ∧
    (checkAuthority emptyDb "demo-user-1" reqC4 "evt_1" "T0").1.reason
      = "Checkout requires your explicit confirmation. Click the checkout button to proceed." := by
  have h := checkAuthority_checkoutStart_confirm_blocks emptyDb "demo-user-1" reqC4 "evt_1" "T0"
    rfl rfl
    (by intro ct hct; cases hct; norm_num [policyOfDoc, getPolicy, emptyDb, dbDefaultPolicy])
    (by intro cs hcs; cases hcs; intro c hc; simp [policyOfDoc, getPolicy, emptyDb, dbDefaultPolicy] at hc ⊢; simp [hc])
    (by intro its hits; cases hits)
  exact ⟨h.1, h.2 rfl⟩

/-! ## Claim theorems: policy round-trip (C6) -/

/-- Update request saving just the category list `["office"]`. -/
def c6Update : PolicyUpdateRequest :=
  { maxSpend := none, allowedCategories := some ["office"], agentEnabled := none,
    requireConfirm := none }

/-- The store after saving `["office"]` through the update endpoint. -/
def c6Db1 : Db :=
  match updateUserPolicy emptyDb "demo-user-1" c6Update "T1" with
  | .ok x => x.2
  | .error _ => emptyDb

/-- C6 counterexample: saving the (valid, normalized) category list
`["office"]` succeeds, but a subsequent GET does not return `["office"]` —
the legacy-set auto-migration expands it to the full 17-category list, so
the round-trip fails even as a set. -/
theorem updateThenGet_legacy_expansion_counterexample :
    ((updateUserPolicy emptyDb "demo-user-1" c6Update "T1").map
        (fun x => x.1.policy.allowedCategories) = .ok ["office"]) ∧
    (getUserPolicy c6Db1 "demo-user-1" "T2").1.policy.allowedCategories
        = ALL_ALLOWED_CATEGORIES ∧
    sameSet (getUserPolicy c6Db1 "demo-user-1" "T2").1.policy.allowedCategories ["office"]
        = false := by
  refine ⟨rfl, ?_, ?_⟩ <;> decide

/-- C6 amended: the saved-then-fetched category list round-trips exactly
whenever the normalized saved set is non-empty and is not one of the legacy
sets that GET auto-migrates. -/
theorem updateThenGet_roundtrip_nonlegacy
    (db : Db) (userId : String) (update : PolicyUpdateRequest) (cats : List String)
    (t1 t2 : String) (resp1 : PolicyResponse) (db1 : Db)
    (hcats : update.allowedCategories = some cats)
    (hne : normalizeCategories cats ≠ [])
    (hnl : shouldExpandCategories (normalizeCategories cats) = false)
    (hok : updateUserPolicy db userId update t1 = .ok (resp1, db1)) :
    resp1.policy.allowedCategories = normalizeCategories cats ∧
    (getUserPolicy db1 userId t2).1.policy.allowedCategories = normalizeCategories cats := by
  have hempty : (normalizeCategories cats).isEmpty = false := by
    cases h : normalizeCategories cats with
    | nil => exact absurd h hne
    | cons a t => rfl
  simp only [updateUserPolicy, hcats, hempty, Bool.false_eq_true, if_false] at hok
  by_cases h1 : (update.maxSpend.getD (getPolicy db userId).maxSpend) < 0
  · rw [if_pos h1] at hok
    cases hok
  · rw [if_neg h1] at hok
    by_cases h2 : (normalizeCategories cats).all (fun c => ALL_ALLOWED_CATEGORIES.contains c)
    · rw [h2] at hok
      simp only [Bool.not_true, Bool.false_eq_true, if_false, savePolicy] at hok
      injection hok with hok
      injection hok with hresp hdb
      constructor
      · rw [← hresp]
      · rw [← hdb]
        unfold getUserPolicy
        simp [getPolicy, normalizeCategories_idem, hnl, hempty]
    · simp only [h2, Bool.not_false, if_true] at hok
      cases hok

/-- Update request witnessing the amended round-trip: mixed-case, padded
categories that normalize to a non-legacy set. -/
def c6wUpdate : PolicyUpdateRequest :=
  { maxSpend := none, allowedCategories := some ["Office", " construction "],
    agentEnabled := none, requireConfirm := none }

/-- The response of the witnessing update. -/
def c6wResp : PolicyResponse :=
  match updateUserPolicy emptyDb "demo-user-1" c6wUpdate "T1" with
  | .ok x => x.1
  | .error _ => { userId := "", policy := ⟨0, [], false, false⟩, updatedAt := none }

/-- The store after the witnessing update. -/
def c6wDb : Db :=
  match updateUserPolicy emptyDb "demo-user-1" c6wUpdate "T1" with
  | .ok x => x.2
  | .error _ => emptyDb

/-- Witness for the amended C6 round-trip: saving `["Office", " construction "]`
and fetching returns exactly the normalized list `["office", "construction"]`. -/
theorem updateThenGet_roundtrip_nonlegacy_witness :
    (getUserPolicy c6wDb "demo-user-1" "T2").1.policy.allowedCategories
      = ["office", "construction"] := by
  have h := updateThenGet_roundtrip_nonlegacy emptyDb "demo-user-1" c6wUpdate
    ["Office", " construction "] "T1" "T2" c6wResp c6wDb rfl (by decide) (by decide) rfl
  rw [h.2]
  decide

/-! ## Bundle selector (`api/agent.py` `generate_bundle`, `api/shopify.py`
catalog, `schemas/bundle.py`) -/

/-- `ProductVariant` (`api/shopify.py`). -/
structure ProductVariant where
  id : String
  title : String
  price : ℚ
  sku : Option String := none
deriving Repr, DecidableEq

/-- `Product` (`api/shopify.py`).  Note: the model defines `inStock` but NO
`stockQuantity` field. -/
structure CatalogProduct where
  id : String
  title : String
  vendor : String
  productType : String
  tags : List String
  images : List String
  variants : List ProductVariant
  inStock : Option Bool := none
deriving Repr, DecidableEq

/-- `PurchaseHistoryItem` (`api/shopify.py`). -/
structure PurchaseHistoryItem where
  productId : String
  title : String
  vendor : String
  category : String
  price : ℚ
  purchasedAt : String
deriving Repr, DecidableEq

/-- The static catalog `PRODUCTS = list(_DEFAULT_PRODUCTS)` (`api/shopify.py`). -/
def PRODUCTS : List CatalogProduct := [
  { id := "gid://shopify/Product/3001", title := "Wireless Headphones", vendor := "TechVendor",
    productType := "Electronics", tags := ["wireless", "audio"],
    images := ["https://m.media-amazon.com/images/I/71YGski2TNL._AC_SL1500_.jpg"],
    variants := [{ id := "gid://shopify/ProductVariant/4001", title := "Default", price := 99.99 }],
    inStock := some true },
  { id := "gid://shopify/Product/3002", title := "Smartphone Case", vendor := "TechVendor",
    productType := "Accessories", tags := ["phone", "protection"],
    images := ["https://upload.wikimedia.org/wikipedia/commons/9/92/Smartphone_with_case_cover_on_table.jpg"],
    variants := [{ id := "gid://shopify/ProductVariant/4002", title := "Default", price := 19.99 }],
    inStock := some true },
  { id := "gid://shopify/Product/3003", title := "Laptop Stand", vendor := "TechVendor",
    productType := "Accessories", tags := ["laptop", "ergonomic"],
    images := ["https://upload.wikimedia.org/wikipedia/commons/5/51/Dell_laptop_on_a_stand_in_a_museum.jpg"],
    variants := [{ id := "gid://shopify/ProductVariant/4003", title := "Default", price := 49.99 }],
    inStock := some true },
  { id := "gid://shopify/Product/3004", title := "Bluetooth Speaker", vendor := "SoundWave",
    productType := "Electronics", tags := ["audio", "portable", "bluetooth"],
    images := ["https://upload.wikimedia.org/wikipedia/commons/f/f9/Beats_By_Dr._Dre_Pill_Portable_Bluetooth_Speaker_Black_N2.jpg"],
    variants := [{ id := "gid://shopify/ProductVariant/4004", title := "Default", price := 79.99 }],
    inStock := some true },
  { id := "gid://shopify/Product/3005", title := "Mechanical Keyboard", vendor := "KeyPro",
    productType := "Electronics", tags := ["keyboard", "mechanical", "gaming"],
    images := ["https://upload.wikimedia.org/wikipedia/commons/7/7f/Beautiful_Mechanical_Keyboard.jpg"],
    variants := [{ id := "gid://shopify/ProductVariant/4005", title := "Default", price := 129.99 }],
    inStock := some false },
  { id := "gid://shopify/Product/3006", title := "Wireless Mouse", vendor := "KeyPro",
    productType := "Accessories", tags := ["mouse", "wireless", "ergonomic"],
    images := ["https://upload.wikimedia.org/wikipedia/commons/f/f1/A_black_wireless_computer_mouse.jpg"],
    variants := [{ id := "gid://shopify/ProductVariant/4006", title := "Default", price := 39.99 }],
    inStock := some true },
  { id := "gid://shopify/Product/3007", title := "USB-C Charging Cable", vendor := "ChargeIt",
    productType := "Accessories", tags := ["charging", "usb-c"],
    images := ["https://upload.wikimedia.org/wikipedia/commons/3/36/Bad_USB-C_cable.agr.jpg"],
    variants := [{ id := "gid://shopify/ProductVariant/4007", title := "Default", price := 14.99 }],
    inStock := some true },
  { id := "gid://shopify/Product/3008", title := "Smartwatch", vendor := "FitTech",
    productType := "Electronics", tags := ["wearable", "fitness", "smart"],
    images := ["https://upload.wikimedia.org/wikipedia/commons/a/a0/Android_Wear_Smartwatch-_LG_G_Watch_%2815051774155%29.jpg"],
    variants := [{ id := "gid://shopify/ProductVariant/4008", title := "Default", price := 199.99 }],
    inStock := some true },
  { id := "gid://shopify/Product/3009", title := "Noise Cancelling Earbuds", vendor := "SoundWave",
    productType := "Electronics", tags := ["audio", "wireless", "noise-cancelling"],
    images := ["https://upload.wikimedia.org/wikipedia/commons/9/90/ActiveSound_wireless_earbuds_by_Hykker_%28POJM200483%29.jpg"],
    variants := [{ id := "gid://shopify/ProductVariant/4009", title := "Default", price := 149.99 }],
    inStock := some false },
  { id := "gid://shopify/Product/3010", title := "Webcam 1080p", vendor := "VisionTech",
    productType := "Electronics", tags := ["camera", "streaming", "remote-work"],
    images := ["https://upload.wikimedia.org/wikipedia/commons/f/f5/Fancy_webcam_on_computer_screen.jpg"],
    variants := [{ id := "gid://shopify/ProductVariant/4010", title := "Default", price := 59.99 }],
    inStock := some true },
  { id := "gid://shopify/Product/3011", title := "Reusable Water Bottle", vendor := "GreenLife",
    productType := "Lifestyle", tags := ["eco-friendly", "hydration"],
    images := ["https://upload.wikimedia.org/wikipedia/commons/0/03/JOB_water_bottle_%28cropped1%29.jpg"],
    variants := [{ id := "gid://shopify/ProductVariant/4011", title := "Default", price := 24.99 }],
    inStock := some true },
  { id := "gid://shopify/Product/3012", title := "Aromatic Soy Candle", vendor := "CozyCorner",
    productType := "Home", tags := ["home", "relaxation", "scented"],
    images := ["https://upload.wikimedia.org/wikipedia/commons/4/43/Candle_%28Slava_celebration%29.jpg"],
    variants := [{ id := "gid://shopify/ProductVariant/4012", title := "Default", price := 18.50 }],
    inStock := some true },
  { id := "gid://shopify/Product/3013", title := "Minimalist Backpack", vendor := "UrbanCarry",
    productType := "Fashion", tags := ["travel", "fashion", "storage"],
    images := ["https://upload.wikimedia.org/wikipedia/commons/a/a3/A_backpack_with_trekking_poles_and_shoes.jpg"],
    variants := [{ id := "gid://shopify/ProductVariant/4013", title := "Default", price := 89.99 }],
    inStock := some false },
  { id := "gid://shopify/Product/3014", title := "Desk Plant (Succulent)", vendor := "Plantify",
    productType := "Home", tags := ["plant", "decor", "workspace"],
    images := ["https://upload.wikimedia.org/wikipedia/commons/5/57/Flickr_-_brewbooks_-_Succulent_Pot.jpg"],
    variants := [{ id := "gid://shopify/ProductVariant/4014", title := "Default", price := 15.99 }],
    inStock := some true },
  { id := "gid://shopify/Product/3015", title := "Instant Ramen Variety Pack", vendor := "NoodleHouse",
    productType := "Grocery", tags := ["food", "convenience", "snacks"],
    images := ["https://upload.wikimedia.org/wikipedia/commons/1/16/Boxes_of_instant_noodles_on_a_supermarket_shelf%2C_with_the_words_%22First_In_First_Out_-_Retain_Freshness%22_written_on_them.jpg"],
    variants := [{ id := "gid://shopify/ProductVariant/4015", title := "Default", price := 9.99 }],
    inStock := some true },
  { id := "gid://shopify/Product/3016", title := "Yoga Mat", vendor := "ZenMotion",
    productType := "Fitness", tags := ["fitness", "wellness", "exercise"],
    images := ["https://upload.wikimedia.org/wikipedia/commons/6/6e/Cotton_Yoga_Mats.png"],
    variants := [{ id := "gid://shopify/ProductVariant/4016", title := "Default", price := 44.99 }],
    inStock := some true },
  { id := "gid://shopify/Product/3017", title := "Board Game: Monopoli", vendor := "PlayForge",
    productType := "Entertainment", tags := ["games", "strategy", "multiplayer"],
    images := ["https://upload.wikimedia.org/wikipedia/commons/7/78/Monopoly_board_on_white_bg.jpg"],
    variants := [{ id := "gid://shopify/ProductVariant/4017", title := "Default", price := 54.99 }],
    inStock := some true },
  { id := "gid://shopify/Product/3018", title := "Vintage-Style Wall Clock", vendor := "TimelessCo",
    productType := "Home", tags := ["decor", "timepiece", "vintage"],
    images := ["https://upload.wikimedia.org/wikipedia/commons/4/4c/Clock_Gallery_-_retro_obchod_v_centru_Prahy.jpg"],
    variants := [{ id := "gid://shopify/ProductVariant/4018", title := "Default", price := 67.00 }],
    inStock := some false },
  { id := "gid://shopify/Product/3019", title := "Cookbook: 30-Minute Meals", vendor := "KitchenReads",
    productType := "Books", tags := ["cooking", "recipes", "healthy"],
    images := ["https://upload.wikimedia.org/wikipedia/commons/8/8b/Anna_Howard_Shaw_in_the_Suffrage_Cookbook_1915.jpg"],
    variants := [{ id := "gid://shopify/ProductVariant/4019", title := "Default", price := 34.95 }],
    inStock := some true },
  { id := "gid://shopify/Product/3020", title := "Noise-Reducing Sleep Mask", vendor := "RestEasy",
    productType := "Wellness", tags := ["sleep", "wellness", "travel"],
    images := ["https://upload.wikimedia.org/wikipedia/commons/a/a8/BDSM_Blindfold_Collar.png"],
    variants := [{ id := "gid://shopify/ProductVariant/4020", title := "Default", price := 22.99 }],
    inStock := some true },
  { id := "gid://shopify/Product/3101", title := "Apple Magic Trackpad", vendor := "Apple",
    productType := "Office", tags := ["office", "minimal", "ecosystem", "ergonomic"],
    images := ["https://upload.wikimedia.org/wikipedia/commons/a/af/AppleMagicTrackpad.jpg"],
    variants := [{ id := "gid://shopify/ProductVariant/4101", title := "Default", price := 169.00 }],
    inStock := some true },
  { id := "gid://shopify/Product/3102", title := "Apple Magic Keyboard", vendor := "Apple",
    productType := "Office", tags := ["office", "minimal", "ecosystem"],
    images := ["https://upload.wikimedia.org/wikipedia/commons/0/06/Apple_Magic_Keyboard_-_UK.jpg"],
    variants := [{ id := "gid://shopify/ProductVariant/4102", title := "Default", price := 99.00 }],
    inStock := some true },
  { id := "gid://shopify/Product/3103", title := "Logitech MX Master 3S", vendor := "Logitech",
    productType := "Office", tags := ["office", "ergonomic", "minimal"],
    images := ["https://upload.wikimedia.org/wikipedia/commons/2/28/2017_Mysz_komputerowa_Logitech_MX_Master.jpg"],
    variants := [{ id := "gid://shopify/ProductVariant/4103", title := "Default", price := 99.99 }],
    inStock := some true },
  { id := "gid://shopify/Product/3104", title := "Logitech MX Keys Mini", vendor := "Logitech",
    productType := "Office", tags := ["office", "minimal", "quiet"],
    images := ["https://upload.wikimedia.org/wikipedia/commons/7/78/Logitech_MX_Keys_YR0073_Wireless_Keyboard.jpg"],
    variants := [{ id := "gid://shopify/ProductVariant/4104", title := "Default", price := 99.99 }],
    inStock := some true },
  { id := "gid://shopify/Product/3105", title := "Logitech Lift Vertical Mouse", vendor := "Logitech",
    productType := "Office", tags := ["office", "ergonomic"],
    images := ["https://upload.wikimedia.org/wikipedia/commons/b/b5/Delux_M618_vertical_mouse.jpg"],
    variants := [{ id := "gid://shopify/ProductVariant/4105", title := "Default", price := 69.99 }],
    inStock := some true },
  { id := "gid://shopify/Product/3106", title := "Keychron K2 (Non-RGB)", vendor := "Keychron",
    productType := "Office", tags := ["office", "minimal"],
    images := ["https://upload.wikimedia.org/wikipedia/commons/6/67/End_-_Keychron_K8_Non-Backlight_Wireless_Mechanical_Keyboard.jpg"],
    variants := [{ id := "gid://shopify/ProductVariant/4106", title := "Default", price := 89.99 }],
    inStock := some true },
  { id := "gid://shopify/Product/3107", title := "Generic RGB Mechanical Keyboard", vendor := "Unknown",
    productType := "Office", tags := ["office", "RGB", "flashy", "unknown"],
    images := ["https://upload.wikimedia.org/wikipedia/commons/0/0d/Logitech-g910_%2816093947623%29.jpg"],
    variants := [{ id := "gid://shopify/ProductVariant/4107", title := "Default", price := 89.99 }],
    inStock := some true },
  { id := "gid://shopify/Product/3108", title := "Dell UltraSharp 27\" Monitor", vendor := "Dell",
    productType := "Office", tags := ["office", "minimal", "monitor"],
    images := ["https://upload.wikimedia.org/wikipedia/commons/7/73/Monitor_-_Flickr_-_davispuh.jpg"],
    variants := [{ id := "gid://shopify/ProductVariant/4108", title := "Default", price := 329.00 }],
    inStock := some true },
  { id := "gid://shopify/Product/3109", title := "LG 27\" 4K Monitor", vendor := "LG",
    productType := "Office", tags := ["office", "monitor"],
    images := ["https://upload.wikimedia.org/wikipedia/commons/4/46/LG_%EC%9A%B8%ED%8A%B8%EB%9D%BC%EA%B8%B0%EC%96%B4_%EC%95%9E%EC%84%B8%EC%9B%8C_%EA%B2%8C%EC%9D%B4%EB%B0%8D_%EB%AA%A8%EB%8B%88%ED%84%B0_%EC%88%98%EC%9A%94_%EC%9E%A1%EB%8A%94%EB%8B%A4_-_50396067637.jpg"],
    variants := [{ id := "gid://shopify/ProductVariant/4109", title := "Default", price := 299.00 }],
    inStock := some true },
  { id := "gid://shopify/Product/3110", title := "Samsung Curved Gaming Monitor", vendor := "Samsung",
    productType := "Office", tags := ["office", "monitor", "flashy"],
    images := ["https://upload.wikimedia.org/wikipedia/commons/9/9b/ILA_2010_Samstag_232.JPG"],
    variants := [{ id := "gid://shopify/ProductVariant/4110", title := "Default", price := 279.00 }],
    inStock := some true },
  { id := "gid://shopify/Product/3111", title := "Fully Jarvis Standing Desk", vendor := "Fully",
    productType := "Office", tags := ["office", "ergonomic", "standing_desk"],
    images := ["https://upload.wikimedia.org/wikipedia/commons/4/48/Dmitri_Mendeleev%27s_standing_desk.jpg"],
    variants := [{ id := "gid://shopify/ProductVariant/4111", title := "Default", price := 499.00 }],
    inStock := some true },
  { id := "gid://shopify/Product/3112", title := "IKEA BEKANT Desk", vendor := "IKEA",
    productType := "Office", tags := ["office", "minimal", "desk"],
    images := ["https://upload.wikimedia.org/wikipedia/commons/a/af/Ikea_Bekant_Sit_Stand_Desk_%2819548014198%29.jpg"],
    variants := [{ id := "gid://shopify/ProductVariant/4112", title := "Default", price := 249.00 }],
    inStock := some true },
  { id := "gid://shopify/Product/3113", title := "Herman Miller Aeron Chair", vendor := "Herman Miller",
    productType := "Office", tags := ["office", "ergonomic", "premium"],
    images := ["https://upload.wikimedia.org/wikipedia/commons/d/d3/Aeron_Chair.jpg"],
    variants := [{ id := "gid://shopify/ProductVariant/4113", title := "Default", price := 1199.00 }],
    inStock := some true },
  { id := "gid://shopify/Product/3114", title := "Budget Office Chair (No Name)", vendor := "Unknown",
    productType := "Office", tags := ["office", "unknown"],
    images := ["https://upload.wikimedia.org/wikipedia/commons/d/d4/Buerostuhl_%28fcm%29.jpg"],
    variants := [{ id := "gid://shopify/ProductVariant/4114", title := "Default", price := 89.00 }],
    inStock := some true },
  { id := "gid://shopify/Product/3115", title := "Foot Rest Under Desk", vendor := "Logitech",
    productType := "Office", tags := ["office", "ergonomic"],
    images := ["https://upload.wikimedia.org/wikipedia/commons/0/07/Footrest_to_the_throne_of_King_William_III_of_the_Netherlands_%281842-1849%29.jpg"],
    variants := [{ id := "gid://shopify/ProductVariant/4115", title := "Default", price := 29.99 }],
    inStock := some true },
  { id := "gid://shopify/Product/3116", title := "Bose QuietComfort Headphones", vendor := "Bose",
    productType := "Office", tags := ["office", "minimal", "comfort", "audio"],
    images := ["https://upload.wikimedia.org/wikipedia/commons/8/80/BOSE_QUIETCOMFORT_20_ACOUSTIC_NOISE_CANCELLING_HEADPHONE_FOR_APPLE_DEVICE.jpg"],
    variants := [{ id := "gid://shopify/ProductVariant/4116", title := "Default", price := 249.00 }],
    inStock := some true },
  { id := "gid://shopify/Product/3117", title := "Sony WH-1000XM5 Headphones", vendor := "Sony",
    productType := "Office", tags := ["office", "audio", "premium"],
    images := ["https://upload.wikimedia.org/wikipedia/commons/d/d1/City_traffic_in_New_York_Texas_%28Unsplash%29.jpg"],
    variants := [{ id := "gid://shopify/ProductVariant/4117", title := "Default", price := 329.00 }],
    inStock := some true },
  { id := "gid://shopify/Product/3118", title := "Anker PowerConf Speakerphone", vendor := "Anker",
    productType := "Office", tags := ["office", "audio", "calls"],
    images := ["https://upload.wikimedia.org/wikipedia/commons/f/ff/Bell_telephone_magazine_%281922%29_%2814569336880%29.jpg"],
    variants := [{ id := "gid://shopify/ProductVariant/4118", title := "Default", price := 119.00 }],
    inStock := some true },
  { id := "gid://shopify/Product/3119", title := "Generic RGB Gaming Headset", vendor := "Unknown",
    productType := "Office", tags := ["office", "RGB", "flashy", "unknown", "audio"],
    images := ["https://upload.wikimedia.org/wikipedia/commons/b/be/Corsair_Gaming_logo.png"],
    variants := [{ id := "gid://shopify/ProductVariant/4119", title := "Default", price := 49.99 }],
    inStock := some true },
  { id := "gid://shopify/Product/3120", title := "BenQ ScreenBar Monitor Light", vendor := "BenQ",
    productType := "Office", tags := ["office", "minimal", "lighting"],
    images := ["https://upload.wikimedia.org/wikipedia/commons/7/79/%27Pinus_sylvestris%27_Scots_Pine_at_Staplefield%2C_West_Sussex%2C_England_03.JPG"],
    variants := [{ id := "gid://shopify/ProductVariant/4120", title := "Default", price := 129.00 }],
    inStock := some true },
  { id := "gid://shopify/Product/3121", title := "LED Strip Lights (RGB)", vendor := "Unknown",
    productType := "Office", tags := ["office", "RGB", "flashy", "unknown", "lighting"],
    images := ["https://upload.wikimedia.org/wikipedia/commons/f/f7/LED_strip_closeup.jpg"],
    variants := [{ id := "gid://shopify/ProductVariant/4121", title := "Default", price := 19.99 }],
    inStock := some true },
  { id := "gid://shopify/Product/3122", title := "Cable Management Kit", vendor := "IKEA",
    productType := "Office", tags := ["office", "minimal", "cables"],
    images := ["https://upload.wikimedia.org/wikipedia/commons/1/1c/Bell_telephone_magazine_%281922%29_%2814752979481%29.jpg"],
    variants := [{ id := "gid://shopify/ProductVariant/4122", title := "Default", price := 24.99 }],
    inStock := some true },
  { id := "gid://shopify/Product/3124", title := "Webcam 1080p", vendor := "Logitech",
    productType := "Office", tags := ["office", "calls"],
    images := ["https://upload.wikimedia.org/wikipedia/commons/f/f5/Fancy_webcam_on_computer_screen.jpg"],
    variants := [{ id := "gid://shopify/ProductVariant/4124", title := "Default", price := 59.99 }],
    inStock := some true },
  { id := "gid://shopify/Product/3125", title := "Anker 65W USB-C Charger", vendor := "Anker",
    productType := "Office", tags := ["office", "power", "minimal"],
    images := ["https://upload.wikimedia.org/wikipedia/commons/a/a8/Apple_5W_USB_Power_Adapter_%284935%29.jpg"],
    variants := [{ id := "gid://shopify/ProductVariant/4125", title := "Default", price := 49.99 }],
    inStock := some true },
  { id := "gid://shopify/Product/3126", title := "Belkin MagSafe Charger", vendor := "Belkin",
    productType := "Office", tags := ["office", "power", "ecosystem"],
    images := ["https://upload.wikimedia.org/wikipedia/commons/3/3e/Apple_iBook_Puck_Charger_Plug.jpg"],
    variants := [{ id := "gid://shopify/ProductVariant/4126", title := "Default", price := 39.99 }],
    inStock := some true },
  { id := "gid://shopify/Product/3127", title := "Generic Fast Charger (RGB)", vendor := "Unknown",
    productType := "Office", tags := ["office", "power", "RGB", "unknown"],
    images := ["https://upload.wikimedia.org/wikipedia/commons/6/6c/ECig_recharging_on_iHome_dock.jpg"],
    variants := [{ id := "gid://shopify/ProductVariant/4127", title := "Default", price := 19.99 }],
    inStock := some true },
  { id := "gid://shopify/Product/3128", title := "Philips Hue Starter Kit", vendor := "Philips",
    productType := "Smart_home", tags := ["smart_home", "lighting", "minimal"],
    images := ["https://upload.wikimedia.org/wikipedia/commons/8/8c/2006_Smart_ForFour_Brabus_%288085616829%29.jpg"],
    variants := [{ id := "gid://shopify/ProductVariant/4128", title := "Default", price := 199.00 }],
    inStock := some true },
  { id := "gid://shopify/Product/3129", title := "Apple HomePod mini", vendor := "Apple",
    productType := "Smart_home", tags := ["smart_home", "ecosystem", "audio"],
    images := ["https://upload.wikimedia.org/wikipedia/commons/b/b9/Apple_HomePod_mini.jpg"],
    variants := [{ id := "gid://shopify/ProductVariant/4129", title := "Default", price := 99.00 }],
    inStock := some true },
  { id := "gid://shopify/Product/3130", title := "Google Nest Thermostat", vendor := "Google",
    productType := "Smart_home", tags := ["smart_home", "energy"],
    images := ["https://upload.wikimedia.org/wikipedia/commons/3/39/Nest_Thermostat_E%2C_Oosterflank%2C_Rotterdam_%282020%29.jpg"],
    variants := [{ id := "gid://shopify/ProductVariant/4130", title := "Default", price := 129.00 }],
    inStock := some true },
  { id := "gid://shopify/Product/3131", title := "Ring Video Doorbell", vendor := "Ring",
    productType := "Smart_home", tags := ["smart_home", "security"],
    images := ["https://upload.wikimedia.org/wikipedia/commons/0/0d/Hubble_reveals_the_Ring_Nebula%E2%80%99s_true_shape.jpg"],
    variants := [{ id := "gid://shopify/ProductVariant/4131", title := "Default", price := 99.00 }],
    inStock := some true },
  { id := "gid://shopify/Product/3132", title := "DeWalt 20V Drill Driver Kit", vendor := "DeWalt",
    productType := "Construction", tags := ["construction", "tools"],
    images := ["https://upload.wikimedia.org/wikipedia/commons/1/11/A_boy_with_Down_syndrome_using_cordless_drill_to_assemble_a_book_case.jpg"],
    variants := [{ id := "gid://shopify/ProductVariant/4132", title := "Default", price := 199.00 }],
    inStock := some true },
  { id := "gid://shopify/Product/3133", title := "Milwaukee Measuring Tape", vendor := "Milwaukee",
    productType := "Construction", tags := ["construction", "tools"],
    images := ["https://upload.wikimedia.org/wikipedia/commons/1/17/2023_Metr_krawiecki.jpg"],
    variants := [{ id := "gid://shopify/ProductVariant/4133", title := "Default", price := 19.99 }],
    inStock := some true },
  { id := "gid://shopify/Product/3134", title := "Hammer", vendor := "Stanley",
    productType := "Construction", tags := ["construction", "tools"],
    images := ["https://upload.wikimedia.org/wikipedia/commons/8/84/Claw-hammer.jpg"],
    variants := [{ id := "gid://shopify/ProductVariant/4134", title := "Default", price := 14.99 }],
    inStock := some true },
  { id := "gid://shopify/Product/3135", title := "Circular Saw", vendor := "Makita",
    productType := "Construction", tags := ["construction", "tools"],
    images := ["https://upload.wikimedia.org/wikipedia/commons/6/6e/Canton_Saw_Co_-_circular_saw_manufacturer_-_1915_ad.tiff"],
    variants := [{ id := "gid://shopify/ProductVariant/4135", title := "Default", price := 149.00 }],
    inStock := some true },
  { id := "gid://shopify/Product/3136", title := "Safety Glasses", vendor := "3M",
    productType := "Construction", tags := ["construction", "safety"],
    images := ["https://upload.wikimedia.org/wikipedia/commons/4/4e/20200222_FIS_NC_COC_Eisenerz_PRC_HS109_Men_Manuel_Einkemmer_850_4588.jpg"],
    variants := [{ id := "gid://shopify/ProductVariant/4136", title := "Default", price := 9.99 }],
    inStock := some true },
  { id := "gid://shopify/Product/3137", title := "Drywall Sheets (Pack)", vendor := "Generic",
    productType := "Construction", tags := ["construction", "materials"],
    images := ["https://upload.wikimedia.org/wikipedia/commons/c/c8/Drywall-screws-v1_%281%29.png"],
    variants := [{ id := "gid://shopify/ProductVariant/4137", title := "Default", price := 79.00 }],
    inStock := some true },
  { id := "gid://shopify/Product/3138", title := "Interior Paint (Gallon)", vendor := "Behr",
    productType := "Construction", tags := ["construction", "materials"],
    images := ["https://upload.wikimedia.org/wikipedia/commons/3/3f/Anyone_Can_Use_Latex_Paint_Anytime_-_DPLA_-_6ade953208b5f2c500128a815f88ab8b.jpg"],
    variants := [{ id := "gid://shopify/ProductVariant/4138", title := "Default", price := 39.99 }],
    inStock := some true },
  { id := "gid://shopify/Product/3139", title := "Toolbox", vendor := "Husky",
    productType := "Construction", tags := ["construction", "tools"],
    images := ["https://upload.wikimedia.org/wikipedia/commons/0/0a/Caisse_%C3%A0_outils_avec_petit_outillage.JPG"],
    variants := [{ id := "gid://shopify/ProductVariant/4139", title := "Default", price := 29.99 }],
    inStock := some true },
  { id := "gid://shopify/Product/3140", title := "Samsung RGB Gaming Mouse", vendor := "Samsung",
    productType := "Office", tags := ["office", "RGB", "flashy"],
    images := ["https://upload.wikimedia.org/wikipedia/commons/4/42/G502_Hero.jpg"],
    variants := [{ id := "gid://shopify/ProductVariant/4140", title := "Default", price := 59.99 }],
    inStock := some true }
]

/-- `PURCHASE_HISTORY` (`api/shopify.py`): per-persona purchase lists with
`dict.get(persona_id, [])` lookup. -/
def PURCHASE_HISTORY (personaId : String) : List PurchaseHistoryItem :=
  if personaId = "alex" then
    [{ productId := "gid://shopify/Product/1101", title := "Wireless Mouse",
       vendor := "TechGear", category := "electronics", price := 29.99,
       purchasedAt := "2024-10-02" },
     { productId := "gid://shopify/Product/1202", title := "Denim Jeans",
       vendor := "DenimCo", category := "clothing", price := 49.99,
       purchasedAt := "2024-09-15" }]
  else if personaId = "jamie" then
    [{ productId := "gid://shopify/Product/1401", title := "Yoga Mat",
       vendor := "FitGear", category := "sports", price := 22.99,
       purchasedAt := "2024-11-05" },
     { productId := "gid://shopify/Product/1302", title := "Air Purifier",
       vendor := "CleanAir", category := "home", price := 65.00,
       purchasedAt := "2024-08-20" }]
  else []

/-- `BundleItem` (`schemas/bundle.py`). -/
structure BundleItem where
  id : String
  title : String
  price : ℚ
  category : String
  merchant : String
  reasonTags : List String
  qty : ℕ := 1
  stockQuantity : Option ℤ := none
  imageUrl : Option String := none
deriving Repr, DecidableEq

/-- `BundleResult` (`schemas/bundle.py`). -/
structure BundleResult where
  items : List BundleItem
  subtotal : ℚ
  currency : String := "USD"
deriving Repr, DecidableEq

/-- `CartItemInput` (`schemas/bundle.py`). -/
structure CartItemInput where
  id : String
  qty : ℕ := 1
deriving Repr, DecidableEq

/-- `BundleRequest` (`schemas/bundle.py`); `maxSpend` is validated `gt=0`. -/
structure BundleRequest where
  shoppingIntent : String := ""
  maxSpend : ℚ
  allowedCategories : List String := []
  brandPreferences : List String := []
  priceSensitivity : ℤ := 3
  agentEnabled : Bool := true
  personaId : Option String := none
  cartItems : List CartItemInput := []
deriving Repr, DecidableEq

/-- A Python runtime error escaping an endpoint. -/
inductive PyErr where
  /-- `AttributeError`, e.g. reading a field the model does not define. -/
  | attributeError
deriving Repr, DecidableEq

/-- Python `a or b` for an optional string, where `None` and `""` are falsy
(`payload.personaId or "alex"`). -/
def pyOrStr (o : Option String) (d : String) : String :=
  match o with
  | some s => if s = "" then d else s
  | none => d

/-- Python substring containment `needle in haystack` on character lists. -/
def listPrefix : List Char → List Char → Bool
  | [], _ => true
  | _ :: _, [] => false
  | a :: t, b :: u => a == b && listPrefix t u

/-- Substring occurrence anywhere in the haystack. -/
def listInfix (n : List Char) : List Char → Bool
  | [] => n.isEmpty
  | b :: t => listPrefix n (b :: t) || listInfix n t

/-- Python `needle in haystack` for strings. -/
def pyInStr (needle haystack : String) : Bool :=
  listInfix needle.data haystack.data

/-- `cart_quantities = {item.id: item.qty for item in payload.cartItems}`
followed by `.get(product_id, 0)`: in a dict comprehension the last
occurrence of a key wins. -/
def cartQty (cartItems : List CartItemInput) (productId : String) : ℕ :=
  match (cartItems.filter fun it => it.id == productId).getLast? with
  | some it => it.qty
  | none => 0

/-- The attribute access `product.stockQuantity` inside `generate_bundle`
(`api/agent.py` lines 135 and 192).  The static catalog's `Product` model
(`api/shopify.py`) defines `inStock` only — there is no `stockQuantity`
field — so on a pydantic model this access raises `AttributeError`. -/
def productStockQuantity (_p : CatalogProduct) : Except PyErr (Option ℤ) :=
  .error .attributeError

/-- `remaining_stock` (`api/agent.py` lines 134-135):
`max((product.stockQuantity or 0) - cart_quantities.get(product.id, 0), 0)`.
The attribute access raises before any arithmetic happens. -/
def remainingStock (p : CatalogProduct) (cartItems : List CartItemInput) :
    Except PyErr ℤ :=
  match productStockQuantity p with
  | .error e => .error e
  | .ok sq => .ok (max ((sq.getD 0) - (cartQty cartItems p.id : ℤ)) 0)

/-- The `available` list comprehension of `generate_bundle` (`api/agent.py`
lines 137-141): keep catalog products whose normalized type is allowed and
whose remaining stock is positive; the stock check runs only when the
category matches (Python's `and` short-circuits). -/
def availableFilter (allowed : List String) (cartItems : List CartItemInput) :
    List CatalogProduct → Except PyErr (List CatalogProduct)
  | [] => .ok []
  | p :: rest =>
    if allowed.contains (pyNorm p.productType) then
      match remainingStock p cartItems with
      | .error e => .error e
      | .ok s =>
        match availableFilter allowed cartItems rest with
        | .error e => .error e
        | .ok r => .ok (if 0 < s then p :: r else r)
    else availableFilter allowed cartItems rest

/-- `p.variants[0].price` — every catalog product carries at least one
variant, so the index is in range; an empty list is mapped to price 0 to
keep the function total. -/
def variantPrice (p : CatalogProduct) : ℚ :=
  match p.variants with
  | v :: _ => v.price
  | [] => 0

/-- The brand-preference test shared by `score_product` and `add_product`
(`api/agent.py` lines 144-147, 171-174). -/
def brandPrefMatch (brandPrefs : List String) (p : CatalogProduct) : Bool :=
  brandPrefs.contains (pyNorm p.vendor) ||
    brandPrefs.any fun pref =>
      pyInStr pref (pyNorm p.vendor) || pyInStr pref (pyNorm p.title)

/-- `score_product` (`api/agent.py` lines 143-158): the ascending sort key
`(-score, price, id)`. -/
def scoreProduct (brandPrefs pastVendors pastProducts : List String)
    (p : CatalogProduct) : ℤ × ℚ × String :=
  let score : ℤ :=
    (if brandPrefMatch brandPrefs p then 3 else 0) +
    (if pastVendors.contains (pyNorm p.vendor) then 2 else 0) +
    (if pastProducts.contains p.id then 1 else 0)
  (-score, variantPrice p, p.id)

/-- Python's lexicographic `≤` on the `(-score, price, id)` sort key. -/
def scoreKeyLe (a b : ℤ × ℚ × String) : Prop :=
  a.1 < b.1 ∨ (a.1 = b.1 ∧ (a.2.1 < b.2.1 ∨ (a.2.1 = b.2.1 ∧ (a.2.2 < b.2.2 ∨ a.2.2 = b.2.2))))

instance (a b : ℤ × ℚ × String) : Decidable (scoreKeyLe a b) := by
  unfold scoreKeyLe
  infer_instance

/-- Python's lexicographic `≤` on the `(price, id)` key of the cheap-fill
pass. -/
def priceIdLe (a b : ℚ × String) : Prop :=
  a.1 < b.1 ∨ (a.1 = b.1 ∧ (a.2 < b.2 ∨ a.2 = b.2))

instance (a b : ℚ × String) : Decidable (priceIdLe a b) := by
  unfold priceIdLe
  infer_instance

/-- `_build_reason_tags` (`api/agent.py` lines 306-333): fixed base tags,
then conditional preference tags, deduplicated with order preserved. -/
def buildReasonTags (baseTags : List String) (brandPref pastBrand pastItem : Bool) :
    List String :=
  let add := fun (tags : List String) (tag : String) =>
    if tag = "" then tags
    else if tags.contains tag then tags
    else tags ++ [tag]
  let tags := baseTags.foldl add []
  let tags := if brandPref then add tags "Preferred brand" else tags
  let tags := if pastBrand then add tags "Previously purchased brand" else tags
  if pastItem then add tags "Previously purchased item" else tags

/-- `add_product` (`api/agent.py` lines 166-197): budget check, then the
`BundleItem` construction — whose `stockQuantity=product.stockQuantity`
argument raises `AttributeError` against the static catalog model — then
the cumulative 2-decimal rounding of the subtotal. -/
def addProduct (maxSpend : ℚ) (brandPrefs pastVendors pastProducts : List String)
    (p : CatalogProduct) (items : List BundleItem) (subtotal : ℚ) :
    Except PyErr (Bool × List BundleItem × ℚ) :=
  let price := variantPrice p
  if maxSpend < subtotal + price then
    .ok (false, items, subtotal)
  else
    match productStockQuantity p with
    | .error e => .error e
    | .ok sq =>
      let brandPref := brandPrefMatch brandPrefs p
      let pastBrand := pastVendors.contains (pyNorm p.vendor)
      let pastItem := pastProducts.contains p.id
      let reasonTags := buildReasonTags ["Matches category", "Within budget"]
        brandPref pastBrand pastItem
      let item : BundleItem :=
        { id := p.id, title := p.title, price := price, category := p.productType,
          merchant := p.vendor, reasonTags := reasonTags, qty := 1,
          stockQuantity := sq, imageUrl := p.images.head? }
      .ok (true, items ++ [item], pyRound2 (subtotal + price))

/-- The first greedy pass of `generate_bundle` (`api/agent.py` lines
199-202): add score-ranked candidates until six items are held. -/
def greedyPass (maxSpend : ℚ) (brandPrefs pastVendors pastProducts : List String) :
    List CatalogProduct → List BundleItem × ℚ → Except PyErr (List BundleItem × ℚ)
  | [], st => .ok st
  | p :: rest, st =>
    if 6 ≤ st.1.length then .ok st
    else
      match addProduct maxSpend brandPrefs pastVendors pastProducts p st.1 st.2 with
      | .error e => .error e
      | .ok (_, items, sub) =>
        greedyPass maxSpend brandPrefs pastVendors pastProducts rest (items, sub)

/-- The cheap-fill pass of `generate_bundle` (`api/agent.py` lines 204-210):
price-ranked refill to three items, skipping already selected ids. -/
def fillPass (maxSpend : ℚ) (brandPrefs pastVendors pastProducts : List String) :
    List CatalogProduct → List BundleItem × ℚ → Except PyErr (List BundleItem × ℚ)
  | [], st => .ok st
  | p :: rest, st =>
    if 3 ≤ st.1.length then .ok st
    else if st.1.any fun item => item.id == p.id then
      fillPass maxSpend brandPrefs pastVendors pastProducts rest st
    else
      match addProduct maxSpend brandPrefs pastVendors pastProducts p st.1 st.2 with
      | .error e => .error e
      | .ok (_, items, sub) =>
        fillPass maxSpend brandPrefs pastVendors pastProducts rest (items, sub)

/-- `generate_bundle` (`api/agent.py` lines 121-212) over the static catalog.
Raised Python exceptions surface as `Except.error`. -/
def generateBundle (payload : BundleRequest) : Except PyErr BundleResult :=
  if !payload.agentEnabled then
    .ok { items := [], subtotal := 0, currency := "USD" }
  else
    let personaId := pyOrStr payload.personaId "alex"
    let pastPurchases := PURCHASE_HISTORY personaId
    let pastVendors := pastPurchases.map fun p => pyNorm p.vendor
    let pastProducts := pastPurchases.map PurchaseHistoryItem.productId
    let brandPrefs := payload.brandPreferences.map pyNorm
    let allowedCategories := payload.allowedCategories.map pyNorm
    match availableFilter allowedCategories payload.cartItems PRODUCTS with
    | .error e => .error e
    | .ok available =>
      let sortedCandidates := available.insertionSort fun a b =>
        scoreKeyLe (scoreProduct brandPrefs pastVendors pastProducts a)
          (scoreProduct brandPrefs pastVendors pastProducts b)
      let sortedByPrice := available.insertionSort fun a b =>
        priceIdLe (variantPrice a, a.id) (variantPrice b, b.id)
      match greedyPass payload.maxSpend brandPrefs pastVendors pastProducts
          sortedCandidates ([], 0) with
      | .error e => .error e
      | .ok st1 =>
        if st1.1.length < 3 then
          match fillPass payload.maxSpend brandPrefs pastVendors pastProducts
              sortedByPrice st1 with
          | .error e => .error e
          | .ok st2 => .ok { items := st2.1, subtotal := st2.2, currency := "USD" }
        else .ok { items := st1.1, subtotal := st1.2, currency := "USD" }

/-! ## Claim theorems: bundle selector (C2, C10) -/

/-- A well-formed bundle request whose allowed category, `office`, matches
many catalog products. -/
def reqC10 : BundleRequest :=
  { maxSpend := 100, allowedCategories := ["office"], agentEnabled := true }

/-- C10: with the agent enabled and an allowed category that matches catalog
products, `generate_bundle`'s remaining-stock computation reaches the
`stockQuantity` attribute access, which the catalog's `Product` model does
not define, and the call raises `AttributeError` instead of returning a
`BundleResult`. -/
theorem generateBundle_raises_attributeError :
    reqC10.agentEnabled = true ∧ generateBundle reqC10 = .error .attributeError :=
  ⟨rfl, rfl⟩

/-- C2 counterexample: for the request `reqC10` (agent enabled, maxSpend 100,
allowed category `office`), no `BundleResult` is returned at all — the call
raises — so the claim's guarantees about "the BundleResult returned" fail. -/
theorem generateBundle_returns_no_result_counterexample :
    reqC10.agentEnabled = true ∧ 0 < reqC10.maxSpend ∧
    ∀ r : BundleResult, generateBundle reqC10 ≠ .ok r := by
  refine ⟨rfl, by decide, ?_⟩
  intro r h
  have h2 : (Except.error PyErr.attributeError : Except PyErr BundleResult) = .ok r := h
  exact Except.noConfusion h2

theorem availableFilter_ok (allowed : List String) (cartItems : List CartItemInput) :
    ∀ l v, availableFilter allowed cartItems l = .ok v →
      v = [] ∧ ∀ p ∈ l, allowed.contains (pyNorm p.productType) = false := by
  intro l
  induction l with
  | nil =>
    intro v h
    injection h with h
    exact ⟨h.symm, by simp⟩
  | cons p rest ih =>
    intro v h
    unfold availableFilter at h
    by_cases hc : allowed.contains (pyNorm p.productType) = true
    · rw [if_pos hc] at h
      simp [remainingStock, productStockQuantity] at h
    · rw [if_neg hc] at h
      obtain ⟨hv, hrest⟩ := ih v h
      refine ⟨hv, ?_⟩
      intro q hq
      rcases List.mem_cons.mp hq with hq | hq
      · subst hq
        exact Bool.not_eq_true _ ▸ Bool.of_not_eq_true hc
      · exact hrest q hq

/-- C2 amended: whenever `generate_bundle` does return a `BundleResult` for
an agent-enabled, well-formed (`maxSpend > 0`) request, the catalog had no
product in the allowed categories, so the bundle is empty with subtotal 0 —
which never exceeds `maxSpend`, holds at most 6 items, and contains no item
from a category outside the allowed set. -/
theorem generateBundle_ok_invariants (payload : BundleRequest) (r : BundleResult)
    (hen : payload.agentEnabled = true)
    (hms : 0 < payload.maxSpend)
    (hok : generateBundle payload = .ok r) :
    r.items = [] ∧ r.subtotal = 0 ∧ r.subtotal ≤ payload.maxSpend ∧
    r.items.length ≤ 6 ∧
    (∀ it ∈ r.items,
      (payload.allowedCategories.map pyNorm).contains (pyNorm it.category) = true) ∧
    (∀ p ∈ PRODUCTS,
      (payload.allowedCategories.map pyNorm).contains (pyNorm p.productType) = false) := by
  unfold generateBundle at hok
  rw [hen] at hok
  simp only [Bool.not_true, Bool.false_eq_true, if_false] at hok
  cases hav : availableFilter (payload.allowedCategories.map pyNorm) payload.cartItems
      PRODUCTS with
  | error e =>
    rw [hav] at hok
    exact Except.noConfusion hok
  | ok available =>
    rw [hav] at hok
    obtain ⟨hv, hall⟩ := availableFilter_ok _ _ PRODUCTS available hav
    subst hv
    have hok2 : (Except.ok { items := [], subtotal := 0, currency := "USD" }
        : Except PyErr BundleResult) = Except.ok r := hok
    injection hok2 with hok2
    rw [← hok2]
    refine ⟨rfl, rfl, le_of_lt hms, by simp, by simp, hall⟩

/-- A request whose allowed category matches nothing in the catalog, so
`generate_bundle` does return (an empty bundle). -/
def reqToys : BundleRequest :=
  { maxSpend := 100, allowedCategories := ["toys"], agentEnabled := true }

/-- Witness for the amended C2: at `reqToys` the call returns, and the
returned bundle is empty with subtotal 0 ≤ 100. -/
theorem generateBundle_ok_invariants_witness :
    ∃ r : BundleResult, generateBundle reqToys = .ok r ∧
      r.items = [] ∧ r.subtotal = 0 ∧ r.subtotal ≤ reqToys.maxSpend ∧
      r.items.length ≤ 6 := by
  refine ⟨{ items := [], subtotal := 0, currency := "USD" }, rfl, ?_⟩
  have h := generateBundle_ok_invariants reqToys
    { items := [], subtotal := 0, currency := "USD" } rfl (by decide) rfl
  exact ⟨h.1, h.2.1, h.2.2.1, h.2.2.2.1⟩

/-! ## Recommendation orchestrator (`api/agent.py`): request normalisation,
memory model, category filtering, timeout handling -/

/-- `Product` (`api/agent.py` request schema, lines 93-97). -/
structure RProduct where
  name : String
  price : ℚ
  brand : String
  tags : List String
deriving Repr, DecidableEq

/-- `RecommendationRequest` (`api/agent.py` lines 100-118). -/
structure RecommendationRequest where
  user_id : Option String := none
  userId : Option String := none
  products : List RProduct
  context : Option String := some "personal use"
  max_total : Option ℚ := some 500
  shoppingIntent : Option String := none
  allowedCategories : Option (List String) := none
  brandPreferences : Option (List String) := none
  maxSpend : Option ℚ := none
  priceSensitivity : Option ℤ := none
  agentEnabled : Option Bool := some true
deriving Repr, DecidableEq

/-- `_normalize_budget` (`api/agent.py` lines 343-348): `maxSpend` overrides
legacy `max_total`, default 500. -/
def normalizeBudget (req : RecommendationRequest) : ℚ :=
  match req.maxSpend with
  | some m => m
  | none =>
    match req.max_total with
    | some m => m
    | none => 500

/-- `_normalize_list` (`api/agent.py` lines 351-359). -/
def normalizeList (vals : Option (List String)) : List String :=
  match vals with
  | none => []
  | some vs =>
    if vs = [] then []
    else vs.filterMap fun v => if pyNorm v = "" then none else some (pyNorm v)

/-- `_filter_inventory_by_allowed_categories` (`api/agent.py` lines 507-521):
keep products whose normalized tag set intersects the allowed set; the
request's `Product` model has no `productType`, so `getattr(p, "productType",
None)` yields `None` and contributes nothing; an empty filter result falls
back to the full product list. -/
def filterInventoryByAllowedCategories (products : List RProduct)
    (allowedNorm : List String) : List RProduct :=
  if allowedNorm = [] then products
  else
    let filtered := products.filter fun p =>
      (p.tags.map pyNorm).any fun t => allowedNorm.contains t
    if filtered = [] then products else filtered

/-- The deterministic branching of `recommend` up to the external calls
(`api/agent.py` lines 701-738): agent-disabled short-circuit, category
filtering, and the "no items match" empty response. -/
inductive RecommendOutcome where
  | agentDisabled
  | noItemsMatch
  | proceed (inventoryFiltered : List RProduct)
deriving Repr, DecidableEq

/-- `recommend`'s pre-reasoner control flow (`api/agent.py` lines 701-738). -/
def recommendPrefilter (req : RecommendationRequest) : RecommendOutcome :=
  if req.agentEnabled = some false then .agentDisabled
  else
    let allowedNorm := normalizeList req.allowedCategories
    let inventoryFiltered := filterInventoryByAllowedCategories req.products allowedNorm
    if inventoryFiltered = [] then .noItemsMatch
    else .proceed inventoryFiltered

/-- Python string `≤` (code-point lexicographic), used to model `sorted` on
strings. -/
def strLe (a b : String) : Prop := a < b ∨ a = b

instance (a b : String) : Decidable (strLe a b) := by
  unfold strLe
  infer_instance

/-- Python `sorted(set(l))`: deduplicate, then sort lexicographically. -/
def pySortedSet (l : List String) : List String :=
  l.dedup.insertionSort strLe

/-- The `weights` sub-document of the memory payload. -/
structure Weights where
  ecosystem_fit : ℚ
  design : ℚ
  price : ℚ
deriving Repr, DecidableEq

/-- `price_sensitivity` sub-document. -/
structure PriceSensitivityDoc where
  max_cart : ℚ
deriving Repr, DecidableEq

/-- The per-user memory payload (`api/agent.py` `DEFAULT_POLICY`, lines
385-393).  `weights := none` models a payload whose `weights` entry is
absent or empty (both falsy for the `get(...) or default` read). -/
structure MemoryPayload where
  preferred_brands : List String
  preferred_tags : List String
  kept_items : List (String × ℕ)
  rejected_items : List (String × ℕ)
  price_sensitivity : PriceSensitivityDoc
  rejection_patterns : List String
  weights : Option Weights
deriving Repr, DecidableEq

/-- `DEFAULT_POLICY` (`api/agent.py` lines 385-393). -/
def DEFAULT_POLICY_MEM : MemoryPayload :=
  { preferred_brands := ["Apple", "Bose", "Logitech"]
    preferred_tags := []
    kept_items := []
    rejected_items := []
    price_sensitivity := { max_cart := 500 }
    rejection_patterns := []
    weights := some { ecosystem_fit := 0.4, design := 0.3, price := 0.2 } }

/-- `_default_memory` (`api/agent.py` lines 396-399): a value copy of the
default with `max_cart` set to the budget. -/
def defaultMemory (maxTotal : ℚ) : MemoryPayload :=
  { DEFAULT_POLICY_MEM with price_sensitivity := { max_cart := maxTotal } }

/-- The weight rebalancing of `_apply_frontend_preferences_to_memory`
(`api/agent.py` lines 487-502): higher price sensitivity raises the price
weight (`0.15 + (ps-1)*0.25/4`, clamped to `[0.10, 0.60]`), and the
remainder is redistributed over the other two weights proportionally to
their prior ratio, every stored value rounded to 3 decimals. -/
def rebalanceWeights (w : Weights) (ps : ℤ) : Weights :=
  let priceW : ℚ := 0.15 + ((ps : ℚ) - 1) * (0.25 / 4)
  let priceW := max 0.10 (min 0.60 priceW)
  let remaining := 1 - priceW
  let baseOther := if w.ecosystem_fit + w.design = 0 then (0.7 : ℚ)
                   else w.ecosystem_fit + w.design
  { price := pyRound3 priceW
    ecosystem_fit := pyRound3 (remaining * (w.ecosystem_fit / baseOther))
    design := pyRound3 (remaining * (w.design / baseOther)) }

/-- `_apply_frontend_preferences_to_memory` (`api/agent.py` lines 476-504). -/
def applyFrontendPreferencesToMemory (mem : MemoryPayload)
    (req : RecommendationRequest) (budget : ℚ) : MemoryPayload :=
  let mem :=
    match req.brandPreferences with
    | some bps =>
      if bps ≠ [] then
        { mem with preferred_brands :=
            pySortedSet (mem.preferred_brands ++ bps.filterMap fun b =>
              if pyStrip b = "" then none else some (pyStrip b)) }
      else mem
    | none => mem
  let mem := { mem with price_sensitivity := { max_cart := budget } }
  match req.priceSensitivity with
  | some ps =>
    if 1 ≤ ps ∧ ps ≤ 5 then
      { mem with weights := some (rebalanceWeights
          (mem.weights.getD { ecosystem_fit := 0.4, design := 0.3, price := 0.2 }) ps) }
    else mem
  | none => mem

/-! ### The external reasoner boundary and the explanation fallback -/

/-- One dict entry of the decision cart's `items` list; absent keys read as
`None` via `.get`. -/
structure CartDocItem where
  name : Option String := none
  title : Option String := none
  brand : Option String := none
  merchant : Option String := none
deriving Repr, DecidableEq

/-- The parsed decision cart. `total` is `some q` when the JSON carried a
numeric total. -/
structure CartDoc where
  items : List CartDocItem := []
  total : Option ℚ := none
deriving Repr, DecidableEq

/-- Python `int(q)`: truncation toward zero. -/
def intTrunc (q : ℚ) : ℤ :=
  if 0 ≤ q then ⌊q⌋ else -⌊-q⌋

/-- Decimal rendering of a 2-decimal rational, matching `str(float)` for
such values (`150.0`, `99.99`, `18.5`); a decimal idealisation of CPython's
shortest float repr. -/
def ratRepr2 (q : ℚ) : String :=
  let neg := q < 0
  let a : ℚ := if neg then -q else q
  let n := (halfEven (a * 100)).toNat
  let intPart := toString (n / 100)
  let frac := n % 100
  let s :=
    if frac = 0 then intPart ++ ".0"
    else if frac % 10 = 0 then intPart ++ "." ++ toString (frac / 10)
    else intPart ++ "." ++ pad2 frac
  (if neg then "-" else "") ++ s

/-- `_fallback_explanation` (`api/agent.py` lines 581-627), from the parsed
cart onward (`json.loads` is the collaborator boundary; a parse failure or a
non-dict cart is `none`).  The budget `isinstance` test is always true for
the float budget, so the "Under budget" bullet is unconditional. -/
def fallbackExplanation (cart : Option CartDoc) (intent : String) (budget : ℚ)
    (avoidNorm : List String) : String :=
  let doc := cart.getD {}
  let picked := (doc.items.take 8).map fun it =>
    let name := pyStrip (pyOrStr it.name (pyOrStr it.title "Item"))
    let brand := pyStrip (pyOrStr it.brand (pyOrStr it.merchant "Unknown"))
    pyStrip (brand ++ " " ++ name)
  let totalStr :=
    match doc.total with
    | some t => "$" ++ ratRepr2 (pyRound2 t)
    | none => "unknown"
  let pickedStr := if picked = [] then "No items selected"
                   else String.intercalate "; " picked
  let constraintsBullets :=
    ["- Under budget (" ++ totalStr ++ " / $" ++ toString (intTrunc budget) ++ ")",
     "- Matched allowed categories",
     "- Avoided rejected patterns"]
  let avoidSamples := (avoidNorm.filter fun a => a ≠ "").take 4
  let avoidedBullets :=
    if avoidSamples = [] then ["- None specified"]
    else avoidSamples.map fun a => "- " ++ a ++ ": previously avoided"
  "Summary\n" ++
  "Picked: " ++ pickedStr ++ ". Total: " ++ totalStr ++ ".\n\n" ++
  "Constraints followed\n" ++ String.intercalate "\n" constraintsBullets ++ "\n\n" ++
  "Avoided\n" ++ String.intercalate "\n" avoidedBullets ++ "\n\n" ++
  "Preference signal\n" ++
  "You tend to keep trusted brands and avoid flashy or RGB items."

/-- Outcome of one `client.add_message` call at the boundary. -/
inductive CallResult where
  | timeout
  | ok (content : String)
  | apiError
deriving Repr, DecidableEq

/-- `_add_message_with_timeout` (`api/agent.py` lines 527-533):
`asyncio.TimeoutError` becomes `None`, a `BackboardAPIError` is re-raised as
HTTP 502. -/
def addMessageWithTimeout (stage : String) (r : CallResult) :
    Except HttpError (Option String) :=
  match r with
  | .timeout => .ok none
  | .ok c => .ok (some c)
  | .apiError => .error { statusCode := 502, detail := "Backboard error during " ++ stage }

/-- The decision/explanation call sequence of `recommend` (`api/agent.py`
lines 786-870), given the boundary outcomes of the (up to three) external
calls: a decision timeout is an explicit 502; an explanation timeout is
retried exactly once and then replaced by the deterministic local fallback.
The returned natural number counts the explanation calls issued. -/
def recommendLLMPhase (parseCart : String → Option CartDoc) (intent : String)
    (budget : ℚ) (avoidNorm : List String)
    (decisionCall explainCall1 explainCall2 : CallResult) :
    Except HttpError (String × String × ℕ) :=
  match addMessageWithTimeout "add_message decision" decisionCall with
  | .error e => .error e
  | .ok none => .error { statusCode := 502, detail := "Backboard decision timed out" }
  | .ok (some decisionContent) =>
    match addMessageWithTimeout "add_message explanation" explainCall1 with
    | .error e => .error e
    | .ok (some c) => .ok (decisionContent, c, 1)
    | .ok none =>
      match addMessageWithTimeout "add_message explanation retry" explainCall2 with
      | .error e => .error e
      | .ok (some c) => .ok (decisionContent, c, 2)
      | .ok none =>
        .ok (decisionContent,
             fallbackExplanation (parseCart decisionContent) intent budget avoidNorm, 2)

/-! ## Claim theorems: recommend fallback behaviour (C5, C7) -/

/-- A product whose tags do not match the allowed category. -/
def c5Prod : RProduct :=
  { name := "Wireless Headphones", price := 99.99, brand := "TechVendor",
    tags := ["audio"] }

/-- A recommend request with a non-empty product list and an allowed-category
filter matching no product. -/
def c5Req : RecommendationRequest :=
  { products := [c5Prod], allowedCategories := some ["office"] }

/-- C5 counterexample: with a non-empty product list whose category filter
matches nothing, `recommend` does NOT return the explicit "no items match"
response — the filter silently falls back to the unfiltered inventory and
the request proceeds to the external reasoner with the full product list. -/
theorem recommend_no_items_match_counterexample :
    c5Req.products ≠ [] ∧
    (c5Req.products.filter fun p =>
      (p.tags.map pyNorm).any fun t =>
        (normalizeList c5Req.allowedCategories).contains t) = [] ∧
    filterInventoryByAllowedCategories c5Req.products
      (normalizeList c5Req.allowedCategories) = c5Req.products ∧
    recommendPrefilter c5Req = .proceed c5Req.products ∧
    recommendPrefilter c5Req ≠ .noItemsMatch := by
  refine ⟨?_, rfl, rfl, rfl, ?_⟩
  · intro h
    exact List.noConfusion h
  · intro h
    rw [show recommendPrefilter c5Req = .proceed c5Req.products from rfl] at h
    exact RecommendOutcome.noConfusion h

theorem filterInventory_ne_nil (products : List RProduct) (allowedNorm : List String)
    (hne : products ≠ []) :
    filterInventoryByAllowedCategories products allowedNorm ≠ [] := by
  unfold filterInventoryByAllowedCategories
  by_cases ha : allowedNorm = []
  · rw [if_pos ha]
    exact hne
  · rw [if_neg ha]
    by_cases hf : (products.filter fun p =>
        (p.tags.map pyNorm).any fun t => allowedNorm.contains t) = []
    · rw [if_pos hf]
      exact hne
    · rw [if_neg hf]
      exact hf

/-- C5 amended: the explicit "no items match" response is returned only for
an empty product list; for every non-empty product list the category filter
silently falls back to the unfiltered inventory when nothing matches, and
(unless the agent is disabled) `recommend` proceeds with that filtered-or-
fallback inventory. -/
theorem recommendPrefilter_silent_fallback (req : RecommendationRequest)
    (hne : req.products ≠ []) :
    recommendPrefilter req ≠ .noItemsMatch ∧
    (req.agentEnabled ≠ some false →
      recommendPrefilter req = .proceed
        (filterInventoryByAllowedCategories req.products
          (normalizeList req.allowedCategories))) := by
  have hfilter := filterInventory_ne_nil req.products
    (normalizeList req.allowedCategories) hne
  unfold recommendPrefilter
  by_cases hen : req.agentEnabled = some false
  · rw [if_pos hen]
    exact ⟨fun h => RecommendOutcome.noConfusion h, fun hcon => absurd hen hcon⟩
  · rw [if_neg hen]
    rw [if_neg hfilter]
    exact ⟨fun h => RecommendOutcome.noConfusion h, fun _ => rfl⟩

/-- Witness for the amended C5 at the concrete request `c5Req`. -/
theorem recommendPrefilter_silent_fallback_witness :
    recommendPrefilter c5Req ≠ .noItemsMatch ∧
    recommendPrefilter c5Req = .proceed
      (filterInventoryByAllowedCategories c5Req.products
        (normalizeList c5Req.allowedCategories)) := by
  have h := recommendPrefilter_silent_fallback c5Req (by intro h; exact List.noConfusion h)
  exact ⟨h.1, h.2 (by intro h2; exact Option.noConfusion h2 (fun hb => Bool.noConfusion hb))⟩

/-- C7: a decision-call timeout is surfaced as an explicit 502 upstream
failure (no fallback cart); an explanation-call timeout is retried exactly
once, a successful retry is used as-is, and if both attempts time out the
cart is returned with the deterministic locally synthesized fallback
explanation — never an error. -/
theorem recommend_timeout_retry_and_fallback
    (parseCart : String → Option CartDoc) (intent : String) (budget : ℚ)
    (avoidNorm : List String) (d e1 e2 : CallResult) :
    (d = .timeout →
      recommendLLMPhase parseCart intent budget avoidNorm d e1 e2
        = .error { statusCode := 502, detail := "Backboard decision timed out" }) ∧
    (∀ c, d = .ok c → e1 = .timeout → e2 = .timeout →
      recommendLLMPhase parseCart intent budget avoidNorm d e1 e2
        = .ok (c, fallbackExplanation (parseCart c) intent budget avoidNorm, 2)) ∧
    (∀ c s, d = .ok c → e1 = .timeout → e2 = .ok s →
      recommendLLMPhase parseCart intent budget avoidNorm d e1 e2 = .ok (c, s, 2)) ∧
    (∀ c s, d = .ok c → e1 = .ok s →
      recommendLLMPhase parseCart intent budget avoidNorm d e1 e2 = .ok (c, s, 1)) := by
  refine ⟨?_, ?_, ?_, ?_⟩
  · intro hd
    subst hd
    rfl
  · intro c hd h1 h2
    subst hd
    subst h1
    subst h2
    rfl
  · intro c s hd h1 h2
    subst hd
    subst h1
    subst h2
    rfl
  · intro c s hd h1
    subst hd
    subst h1
    rfl

/-- Witness for C7 at concrete calls: a decision timeout errors; a decision
success with two explanation timeouts yields the cart plus the local
fallback after exactly two explanation calls. -/
theorem recommend_timeout_retry_and_fallback_witness :
    recommendLLMPhase (fun _ => none) "office refresh" 500 ["rgb"]
        .timeout .timeout .timeout
      = .error { statusCode := 502, detail := "Backboard decision timed out" } ∧
    recommendLLMPhase (fun _ => none) "office refresh" 500 ["rgb"]
        (.ok "CART_JSON") .timeout .timeout
      = .ok ("CART_JSON",
             fallbackExplanation none "office refresh" 500 ["rgb"], 2) := by
  constructor
  · exact (recommend_timeout_retry_and_fallback (fun _ => none) "office refresh" 500 ["rgb"]
      .timeout .timeout .timeout).1 rfl
  · exact (recommend_timeout_retry_and_fallback (fun _ => none) "office refresh" 500 ["rgb"]
      (.ok "CART_JSON") .timeout .timeout).2.1 "CART_JSON" rfl rfl rfl

/-! ## Claim theorems: memory weights (C8) -/

theorem abs_halfEven_sub_le (q : ℚ) : |(halfEven q : ℚ) - q| ≤ 1/2 := by
  unfold halfEven
  have h0 : (0 : ℚ) ≤ q - ⌊q⌋ := sub_nonneg.mpr (Int.floor_le q)
  have h1 : q - ⌊q⌋ < 1 := by
    have := Int.lt_floor_add_one q
    linarith
  by_cases ha : q - (⌊q⌋ : ℚ) < 1/2
  · rw [if_pos ha]
    rw [abs_sub_comm, abs_of_nonneg h0]
    linarith
  · rw [if_neg ha]
    by_cases hb : (1 : ℚ)/2 < q - (⌊q⌋ : ℚ)
    · rw [if_pos hb]
      push_cast
      rw [abs_of_nonneg (by linarith)]
      linarith
    · rw [if_neg hb]
      have heq : q - (⌊q⌋ : ℚ) = 1/2 := le_antisymm (not_lt.mp hb) (not_lt.mp ha)
      by_cases hc : 2 ∣ ⌊q⌋
      · rw [if_pos hc, abs_sub_comm, abs_of_nonneg h0]
        linarith
      · rw [if_neg hc]
        push_cast
        rw [abs_of_nonneg (by linarith)]
        linarith

theorem abs_pyRound3_sub_le (q : ℚ) : |pyRound3 q - q| ≤ 1/2000 := by
  unfold pyRound3
  have h := abs_halfEven_sub_le (q * 1000)
  have h2 : (halfEven (q * 1000) : ℚ) / 1000 - q = ((halfEven (q * 1000) : ℚ) - q * 1000) / 1000 := by
    ring
  rw [h2, abs_div, abs_of_pos (by norm_num : (0:ℚ) < 1000)]
  rw [div_le_div_iff (by norm_num) (by norm_num : (0:ℚ) < 2000)]
  nlinarith [h]

/-- C8 counterexample: the default memory payload's three weights sum to
0.9, not 1.0. -/
theorem defaultMemory_weights_sum_counterexample :
    ∃ w : Weights, (defaultMemory 500).weights = some w ∧
      w.ecosystem_fit + w.design + w.price = 9/10 ∧
      w.ecosystem_fit + w.design + w.price ≠ 1 := by
  refine ⟨{ ecosystem_fit := 0.4, design := 0.3, price := 0.2 }, rfl, by norm_num, by norm_num⟩

/-- C8 amended: after price-sensitivity rebalancing (sensitivity in 1..5,
prior ecosystem+design weights not both zero) the payload's weights are the
3-decimal roundings of an exact redistribution summing to 1, so the stored
sum differs from 1 by at most 0.0015; the default payload's weights sum to
0.9, not 1.0. -/
theorem rebalanced_weights_sum_amended
    (mem : MemoryPayload) (req : RecommendationRequest) (budget : ℚ) (ps : ℤ) (w : Weights)
    (hps : req.priceSensitivity = some ps) (h1 : 1 ≤ ps) (h5 : ps ≤ 5)
    (hw : mem.weights.getD { ecosystem_fit := 0.4, design := 0.3, price := 0.2 } = w)
    (hb : w.ecosystem_fit + w.design ≠ 0) :
    ((defaultMemory 500).weights.getD w).ecosystem_fit
      + ((defaultMemory 500).weights.getD w).design
      + ((defaultMemory 500).weights.getD w).price = 9/10 ∧
    (applyFrontendPreferencesToMemory mem req budget).weights
      = some (rebalanceWeights w ps) ∧
    (let priceW := max 0.10 (min 0.60 ((0.15 : ℚ) + ((ps : ℚ) - 1) * (0.25 / 4)))
     priceW + (1 - priceW) * (w.ecosystem_fit / (w.ecosystem_fit + w.design))
       + (1 - priceW) * (w.design / (w.ecosystem_fit + w.design)) = 1) ∧
    |((rebalanceWeights w ps).ecosystem_fit + (rebalanceWeights w ps).design
        + (rebalanceWeights w ps).price) - 1| ≤ 3/2000 := by
  have hexact : ∀ pw : ℚ,
      pw + (1 - pw) * (w.ecosystem_fit / (w.ecosystem_fit + w.design))
        + (1 - pw) * (w.design / (w.ecosystem_fit + w.design)) = 1 := by
    intro pw
    field_simp
    ring
  refine ⟨by norm_num [defaultMemory, DEFAULT_POLICY_MEM], ?_, hexact _, ?_⟩
  · unfold applyFrontendPreferencesToMemory
    have hkeep :
        (match req.brandPreferences with
          | some bps =>
            if bps ≠ [] then
              { mem with preferred_brands :=
                  pySortedSet (mem.preferred_brands ++ bps.filterMap fun b =>
                    if pyStrip b = "" then none else some (pyStrip b)) }
            else mem
          | none => mem).weights = mem.weights := by
      cases req.brandPreferences with
      | none => rfl
      | some bps =>
        by_cases hbps : bps ≠ []
        · simp only [if_pos hbps]
        · simp only [if_neg hbps]
    rw [hps]
    simp only [hkeep, hw, if_pos (And.intro h1 h5)]
  · unfold rebalanceWeights
    rw [if_neg hb]
    set pw := max 0.10 (min 0.60 ((0.15 : ℚ) + ((ps : ℚ) - 1) * (0.25 / 4))) with hpw
    set x := (1 - pw) * (w.ecosystem_fit / (w.ecosystem_fit + w.design)) with hx
    set y := (1 - pw) * (w.design / (w.ecosystem_fit + w.design)) with hy
    have hsum : pw + x + y = 1 := hexact pw
    have b1 := abs_pyRound3_sub_le x
    have b2 := abs_pyRound3_sub_le y
    have b3 := abs_pyRound3_sub_le pw
    have hrw : pyRound3 x + pyRound3 y + pyRound3 pw - 1
        = (pyRound3 x - x) + (pyRound3 y - y) + (pyRound3 pw - pw) := by
      linear_combination hsum
    have habs1 : |(pyRound3 x - x) + (pyRound3 y - y) + (pyRound3 pw - pw)|
        ≤ |pyRound3 x - x| + |pyRound3 y - y| + |pyRound3 pw - pw| :=
      le_trans (abs_add _ _) (by
        have := abs_add (pyRound3 x - x) (pyRound3 y - y)
        linarith)
    have hgoal : |pyRound3 x + pyRound3 y + pyRound3 pw - 1| ≤ 3/2000 := by
      rw [hrw]
      linarith
    have hre : (1 - pw) * (w.ecosystem_fit / (w.ecosystem_fit + w.design)) = x := hx.symm
    have hrd : (1 - pw) * (w.design / (w.ecosystem_fit + w.design)) = y := hy.symm
    simpa [hre, hrd] using hgoal

/-- Witness for the amended C8 at the default prior weights and price
sensitivity 4 (where the rounded stored sum is 1.001, within the proven
0.0015 bound, but not exactly 1). -/
theorem rebalanced_weights_sum_amended_witness :
    (applyFrontendPreferencesToMemory (defaultMemory 500)
        { products := [], priceSensitivity := some 4 } 500).weights
      = some (rebalanceWeights { ecosystem_fit := 0.4, design := 0.3, price := 0.2 } 4) ∧
    |((rebalanceWeights { ecosystem_fit := 0.4, design := 0.3, price := 0.2 } 4).ecosystem_fit
        + (rebalanceWeights { ecosystem_fit := 0.4, design := 0.3, price := 0.2 } 4).design
        + (rebalanceWeights { ecosystem_fit := 0.4, design := 0.3, price := 0.2 } 4).price) - 1|
      ≤ 3/2000 := by
  have h := rebalanced_weights_sum_amended (defaultMemory 500)
    { products := [], priceSensitivity := some 4 } 500 4
    { ecosystem_fit := 0.4, design := 0.3, price := 0.2 }
    rfl (by norm_num) (by norm_num) rfl (by norm_num)
  exact ⟨h.2.1, h.2.2.2⟩

/-! ## Feedback learner (`api/agent.py` `_inc_counts`, `_index_inventory`,
`_derive_from_items`) -/

/-- A Python dict `name -> count` as an insertion-ordered association list
with unique keys. -/
abbrev Counter := List (String × ℕ)

/-- The key list of a counter, in insertion order. -/
def keysOf (c : Counter) : List String :=
  c.map Prod.fst

/-- `counter.get(k, 0)`. -/
def lookupD (c : Counter) (k : String) : ℕ :=
  match c with
  | [] => 0
  | (k', v) :: t => if k' = k then v else lookupD t k

/-- `counter[k] = counter.get(k, 0) + 1`: update in place, or append a new
entry at the end (dict insertion order). -/
def bump (c : Counter) (k : String) : Counter :=
  match c with
  | [] => [(k, 1)]
  | (k', v) :: t => if k' = k then (k', v + 1) :: t else (k', v) :: bump t k

/-- The counting loop of `_inc_counts` (`api/agent.py` lines 404-408):
strip each name, skip empties, bump. -/
def foldBump (c : Counter) (ns : List String) : Counter :=
  ns.foldl (fun acc n => if pyStrip n = "" then acc else bump acc (pyStrip n)) c

/-- The number of bumps a key receives from a name list. -/
def occ (k : String) (ns : List String) : ℕ :=
  if k = "" then 0 else ns.countP fun n => pyStrip n == k

/-- Stable descending-by-count order: `sorted(items, key=count, reverse=True)`
keeps earlier entries first among equal counts. -/
def countDescLe (a b : String × ℕ) : Prop := b.2 ≤ a.2

instance (a b : String × ℕ) : Decidable (countDescLe a b) := by
  unfold countDescLe
  infer_instance

instance : IsTotal (String × ℕ) countDescLe :=
  ⟨fun a b => (Nat.le_total b.2 a.2).imp id id⟩

instance : IsTrans (String × ℕ) countDescLe :=
  ⟨fun _ _ _ h1 h2 => Nat.le_trans h2 h1⟩

/-- `sorted(counter.items(), key=lambda kv: kv[1], reverse=True)`. -/
def sortDescCount (c : Counter) : Counter :=
  c.insertionSort countDescLe

/-- `_inc_counts` (`api/agent.py` lines 402-410): bump the counts, then keep
the top `cap` entries by count (stable, so ties keep insertion order). -/
def incCounts (c : Counter) (ns : List String) (cap : ℕ := 80) : Counter :=
  (sortDescCount (foldBump c ns)).take cap

/-- `_index_inventory` (`api/agent.py` lines 413-419) combined with the
dict lookup: entries with a non-empty stripped name are keyed by the
lower-cased stripped name, later entries overwriting earlier ones. -/
def indexInventory (inv : List RProduct) (key : String) : Option RProduct :=
  (inv.filter fun p => (pyStrip p.name ≠ "") && (pyLower (pyStrip p.name) == key)).getLast?

/-- `_derive_from_items` (`api/agent.py` lines 422-473). -/
def deriveFromItems (mem : MemoryPayload) (keptItems rejectedItems : List String)
    (inventorySnapshot : Option (List RProduct)) : MemoryPayload :=
  let keptItems := keptItems.filterMap fun k =>
    if pyStrip k = "" then none else some (pyStrip k)
  let rejectedItems := rejectedItems.filterMap fun r =>
    if pyStrip r = "" then none else some (pyStrip r)
  let mem := { mem with
    kept_items := incCounts mem.kept_items keptItems 80
    rejected_items := incCounts mem.rejected_items rejectedItems 80 }
  let mem := { mem with
    rejection_patterns := pySortedSet
      ((mem.rejection_patterns.filterMap fun x =>
          if pyNorm x = "" then none else some (pyNorm x)) ++
        rejectedItems.map pyNorm) }
  match inventorySnapshot with
  | none => mem
  | some inv =>
    let counts := keptItems.foldl (fun (bc : Counter × Counter) k =>
      match indexInventory inv (pyLower k) with
      | none => bc
      | some p =>
        let brandCounts := if pyStrip p.brand ≠ "" then bump bc.1 (pyStrip p.brand) else bc.1
        let tagCounts := p.tags.foldl (fun tc t =>
          if pyNorm t ≠ "" then bump tc (pyNorm t) else tc) bc.2
        (brandCounts, tagCounts)) ([], [])
    let mem := if counts.1 ≠ [] then
      { mem with
        preferred_brands :=
          pySortedSet (mem.preferred_brands ++
            ((sortDescCount counts.1).take 6).map Prod.fst) }
      else mem
    if counts.2 ≠ [] then
      { mem with
        preferred_tags :=
          pySortedSet (mem.preferred_tags ++
            ((sortDescCount counts.2).take 10).map Prod.fst) }
      else mem

/-! ### Counter lemmas -/

theorem keysOf_cons (a : String × ℕ) (t : Counter) : keysOf (a :: t) = a.1 :: keysOf t :=
  rfl

theorem mem_keysOf_of_mem {c : Counter} {k : String} {v : ℕ} (h : (k, v) ∈ c) :
    k ∈ keysOf c :=
  List.mem_map.mpr ⟨(k, v), h, rfl⟩

theorem lookupD_eq_zero_of_not_mem (c : Counter) (k : String) (h : k ∉ keysOf c) :
    lookupD c k = 0 := by
  induction c with
  | nil => rfl
  | cons a t ih =>
    obtain ⟨k0, v⟩ := a
    rw [keysOf_cons] at h
    have hne : k0 ≠ k := by
      intro he
      exact h (he ▸ List.mem_cons_self k0 (keysOf t))
    simp only [lookupD, if_neg hne]
    exact ih fun hm => h (List.mem_cons_of_mem _ hm)

theorem lookupD_mem (c : Counter) (k : String) (h : k ∈ keysOf c) :
    (k, lookupD c k) ∈ c := by
  induction c with
  | nil => simp [keysOf] at h
  | cons a t ih =>
    obtain ⟨k0, v⟩ := a
    rw [keysOf_cons] at h
    by_cases he : k0 = k
    · subst he
      simp [lookupD]
    · have hk : k ∈ keysOf t := by
        rcases List.mem_cons.mp h with h1 | h1
        · exact absurd h1.symm he
        · exact h1
      simp only [lookupD, if_neg he]
      exact List.mem_cons_of_mem _ (ih hk)

theorem lookupD_eq_of_mem (c : Counter) (k : String) (v : ℕ)
    (hnd : (keysOf c).Nodup) (h : (k, v) ∈ c) : lookupD c k = v := by
  induction c with
  | nil => simp at h
  | cons a t ih =>
    obtain ⟨k0, v0⟩ := a
    rw [keysOf_cons] at hnd
    obtain ⟨hnotin, hndt⟩ := List.nodup_cons.mp hnd
    rcases List.mem_cons.mp h with h1 | h1
    · injection h1 with h1a h1b
      subst h1a
      subst h1b
      simp [lookupD]
    · have hk : k ∈ keysOf t := mem_keysOf_of_mem h1
      have hne : k0 ≠ k := fun he => hnotin (he ▸ hk)
      simp only [lookupD, if_neg hne]
      exact ih hndt h1

theorem keysOf_perm {c c' : Counter} (h : c.Perm c') : (keysOf c).Perm (keysOf c') :=
  h.map Prod.fst

theorem lookupD_perm (c c' : Counter) (k : String) (h : c.Perm c')
    (hnd : (keysOf c).Nodup) : lookupD c k = lookupD c' k := by
  have hnd' : (keysOf c').Nodup := ((keysOf_perm h).nodup_iff).mp hnd
  by_cases hm : k ∈ keysOf c
  · have h1 := lookupD_mem c k hm
    have h2 : (k, lookupD c k) ∈ c' := h.mem_iff.mp h1
    exact (lookupD_eq_of_mem c' k _ hnd' h2).symm
  · have hm' : k ∉ keysOf c' := fun hx => hm ((keysOf_perm h).mem_iff.mpr hx)
    rw [lookupD_eq_zero_of_not_mem c k hm, lookupD_eq_zero_of_not_mem c' k hm']

theorem bump_cons (a : String × ℕ) (t : Counter) (k : String) :
    bump (a :: t) k = if a.1 = k then (a.1, a.2 + 1) :: t else a :: bump t k := by
  obtain ⟨k0, v⟩ := a
  rfl

theorem bump_lookup (c : Counter) (k k' : String) :
    lookupD (bump c k) k' = lookupD c k' + (if k' = k then 1 else 0) := by
  induction c with
  | nil =>
    show lookupD [(k, 1)] k' = lookupD [] k' + (if k' = k then 1 else 0)
    by_cases he : k = k'
    · subst he
      simp [lookupD]
    · show (if k = k' then 1 else lookupD [] k') = _
      rw [if_neg he, if_neg fun h => he h.symm]
      exact (Nat.add_zero _).symm
  | cons a t ih =>
    obtain ⟨k0, v⟩ := a
    rw [bump_cons]
    by_cases h0 : k0 = k
    · rw [if_pos h0]
      subst h0
      by_cases h1 : k0 = k'
      · subst h1
        simp [lookupD]
      · show (if k0 = k' then v + 1 else lookupD t k') = _
        rw [if_neg h1]
        show _ = (if k0 = k' then v else lookupD t k') + _
        rw [if_neg h1, if_neg fun h => h1 h.symm]
        exact (Nat.add_zero _).symm
    · rw [if_neg h0]
      by_cases h1 : k0 = k'
      · subst h1
        show (if k0 = k0 then v else _) = (if k0 = k0 then v else lookupD t k0) + _
        rw [if_pos rfl, if_pos rfl, if_neg h0]
        exact (Nat.add_zero v).symm
      · show (if k0 = k' then v else lookupD (bump t k) k') = _
        rw [if_neg h1]
        show _ = (if k0 = k' then v else lookupD t k') + _
        rw [if_neg h1]
        exact ih

theorem bump_keys_of_mem (c : Counter) (k : String) (h : k ∈ keysOf c) :
    keysOf (bump c k) = keysOf c := by
  induction c with
  | nil => simp [keysOf] at h
  | cons a t ih =>
    obtain ⟨k0, v⟩ := a
    rw [keysOf_cons] at h
    rw [bump_cons]
    by_cases h0 : k0 = k
    · rw [if_pos h0]
      rfl
    · have hk : k ∈ keysOf t := by
        rcases List.mem_cons.mp h with h1 | h1
        · exact absurd h1.symm h0
        · exact h1
      rw [if_neg h0, keysOf_cons, keysOf_cons, ih hk]

theorem bump_of_not_mem (c : Counter) (k : String) (h : k ∉ keysOf c) :
    bump c k = c ++ [(k, 1)] := by
  induction c with
  | nil => rfl
  | cons a t ih =>
    obtain ⟨k0, v⟩ := a
    rw [keysOf_cons] at h
    have h0 : k0 ≠ k := by
      intro he
      exact h (he ▸ List.mem_cons_self k0 (keysOf t))
    simp only [bump, if_neg h0, List.cons_append, List.cons.injEq, true_and]
    exact ih fun hm => h (List.mem_cons_of_mem _ hm)

theorem bump_keys_nodup (c : Counter) (k : String) (hnd : (keysOf c).Nodup) :
    (keysOf (bump c k)).Nodup := by
  by_cases h : k ∈ keysOf c
  · rw [bump_keys_of_mem c k h]
    exact hnd
  · rw [bump_of_not_mem c k h]
    have hkeys : keysOf (c ++ [(k, 1)]) = keysOf c ++ [k] := by
      simp [keysOf]
    rw [hkeys, List.nodup_append]
    refine ⟨hnd, List.nodup_singleton k, ?_⟩
    intro x hx hx2
    rw [List.mem_singleton] at hx2
    subst hx2
    exact h hx

theorem foldBump_cons (c : Counter) (n : String) (ns : List String) :
    foldBump c (n :: ns)
      = foldBump (if pyStrip n = "" then c else bump c (pyStrip n)) ns :=
  rfl

theorem foldBump_keys_nodup (ns : List String) :
    ∀ c : Counter, (keysOf c).Nodup → (keysOf (foldBump c ns)).Nodup := by
  induction ns with
  | nil => exact fun c h => h
  | cons n ns ih =>
    intro c h
    rw [foldBump_cons]
    by_cases hn : pyStrip n = ""
    · rw [if_pos hn]
      exact ih c h
    · rw [if_neg hn]
      exact ih _ (bump_keys_nodup c _ h)

theorem occ_cons (k n : String) (ns : List String) :
    occ k (n :: ns) = (if pyStrip n = k ∧ k ≠ "" then 1 else 0) + occ k ns := by
  unfold occ
  by_cases hk : k = ""
  · simp [hk]
  · simp only [if_neg hk, List.countP_cons]
    by_cases hn : pyStrip n = k
    · simp [hn, hk, Nat.add_comm]
    · simp [hn, hk, beq_iff_eq]

theorem foldBump_lookup (ns : List String) :
    ∀ (c : Counter) (k : String), lookupD (foldBump c ns) k = lookupD c k + occ k ns := by
  induction ns with
  | nil =>
    intro c k
    simp [foldBump, occ]
  | cons n ns ih =>
    intro c k
    rw [foldBump_cons]
    by_cases hn : pyStrip n = ""
    · rw [if_pos hn, ih, occ_cons]
      have hno : ¬(pyStrip n = k ∧ k ≠ "") := by
        rintro ⟨h1, h2⟩
        exact h2 (h1.symm.trans hn)
      rw [if_neg hno, Nat.zero_add]
    · rw [if_neg hn, ih, bump_lookup, occ_cons]
      have hsw : (if pyStrip n = k ∧ k ≠ "" then 1 else 0)
          = (if k = pyStrip n then 1 else 0) := by
        by_cases he : k = pyStrip n
        · subst he
          simp [hn]
        · rw [if_neg fun hc => he hc.1.symm, if_neg he]
      rw [hsw]
      ring

theorem occ_nil (k : String) : occ k [] = 0 := by
  unfold occ
  split <;> rfl

theorem occ_le_cons (k n : String) (ns : List String) : occ k ns ≤ occ k (n :: ns) := by
  rw [occ_cons]
  exact Nat.le_add_left _ _

theorem bump_eq_map (c : Counter) (k : String) (hnd : (keysOf c).Nodup)
    (h : k ∈ keysOf c) :
    bump c k = c.map fun e => if e.1 = k then (e.1, e.2 + 1) else e := by
  induction c with
  | nil => simp [keysOf] at h
  | cons a t ih =>
    obtain ⟨k0, v⟩ := a
    rw [keysOf_cons] at h hnd
    obtain ⟨hnotin, hndt⟩ := List.nodup_cons.mp hnd
    rw [bump_cons]
    by_cases h0 : k0 = k
    · rw [if_pos h0]
      subst h0
      rw [List.map_cons, if_pos rfl]
      congr 1
      have hmap : ∀ e ∈ t, (if e.1 = k0 then (e.1, e.2 + 1) else e) = id e := by
        intro e he
        exact if_neg fun hc : e.1 = k0 => hnotin (hc ▸ mem_keysOf_of_mem he)
      rw [List.map_congr_left hmap, List.map_id]
    · rw [if_neg h0]
      have hk : k ∈ keysOf t := by
        rcases List.mem_cons.mp h with h1 | h1
        · exact absurd h1.symm h0
        · exact h1
      rw [List.map_cons, if_neg h0, ih hndt hk]

theorem keysOf_append (c d : Counter) : keysOf (c ++ d) = keysOf c ++ keysOf d := by
  simp [keysOf]

theorem foldBump_split (ns : List String) :
    ∀ c : Counter, (keysOf c).Nodup →
      ∃ t : Counter,
        foldBump c ns = (c.map fun e => (e.1, e.2 + occ e.1 ns)) ++ t ∧
        ∀ x ∈ t, x.1 ∉ keysOf c ∧ 1 ≤ x.2 ∧ x.2 ≤ occ x.1 ns := by
  induction ns with
  | nil =>
    intro c _
    refine ⟨[], ?_, by simp⟩
    rw [List.append_nil]
    have hmap : ∀ e ∈ c, ((e.1, e.2 + occ e.1 []) : String × ℕ) = id e := by
      intro e _
      rw [occ_nil, Nat.add_zero]
      rfl
    rw [List.map_congr_left hmap, List.map_id]
    rfl
  | cons n ns ih =>
    intro c hnd
    rw [foldBump_cons]
    by_cases hn : pyStrip n = ""
    · rw [if_pos hn]
      obtain ⟨t, h1, h2⟩ := ih c hnd
      have hocc : ∀ k : String, occ k (n :: ns) = occ k ns := by
        intro k
        rw [occ_cons, if_neg (fun hc => hc.2 (hc.1.symm.trans hn)), Nat.zero_add]
      refine ⟨t, ?_, ?_⟩
      · rw [h1]
        congr 1
        exact List.map_congr_left fun e _ => by rw [hocc]
      · intro x hx
        obtain ⟨hx1, hx2, hx3⟩ := h2 x hx
        exact ⟨hx1, hx2, by rw [hocc]; exact hx3⟩
    · rw [if_neg hn]
      by_cases hm : pyStrip n ∈ keysOf c
      · have hb := bump_eq_map c (pyStrip n) hnd hm
        have hnd2 : (keysOf (bump c (pyStrip n))).Nodup := bump_keys_nodup c _ hnd
        obtain ⟨t, h1, h2⟩ := ih (bump c (pyStrip n)) hnd2
        refine ⟨t, ?_, ?_⟩
        · rw [h1, hb, List.map_map]
          congr 1
          apply List.map_congr_left
          intro e _
          by_cases hc : e.1 = pyStrip n
          · show ((fun e : String × ℕ => (e.1, e.2 + occ e.1 ns))
                (if e.1 = pyStrip n then (e.1, e.2 + 1) else e)) = _
            rw [if_pos hc]
            show ((e.1, e.2 + 1 + occ e.1 ns) : String × ℕ) = (e.1, e.2 + occ e.1 (n :: ns))
            rw [occ_cons, if_pos ⟨hc.symm, fun h => hn (hc ▸ h)⟩, Nat.add_assoc]
          · show ((fun e : String × ℕ => (e.1, e.2 + occ e.1 ns))
                (if e.1 = pyStrip n then (e.1, e.2 + 1) else e)) = _
            rw [if_neg hc]
            show ((e.1, e.2 + occ e.1 ns) : String × ℕ) = (e.1, e.2 + occ e.1 (n :: ns))
            rw [occ_cons, if_neg (fun h2 => hc h2.1.symm), Nat.zero_add]
        · intro x hx
          obtain ⟨hx1, hx2, hx3⟩ := h2 x hx
          rw [bump_keys_of_mem c _ hm] at hx1
          exact ⟨hx1, hx2, le_trans hx3 (occ_le_cons _ _ _)⟩
      · have hb := bump_of_not_mem c (pyStrip n) hm
        obtain ⟨t, h1, h2⟩ := ih (bump c (pyStrip n)) (bump_keys_nodup c _ hnd)
        refine ⟨(pyStrip n, 1 + occ (pyStrip n) ns) :: t, ?_, ?_⟩
        · rw [h1, hb, List.map_append, List.append_assoc]
          congr 1
          apply List.map_congr_left
          intro e he
          have hne : e.1 ≠ pyStrip n := fun hc => hm (hc ▸ mem_keysOf_of_mem he)
          show ((e.1, e.2 + occ e.1 ns) : String × ℕ) = (e.1, e.2 + occ e.1 (n :: ns))
          rw [occ_cons, if_neg (fun h2 => hne h2.1.symm), Nat.zero_add]
        · intro x hx
          rcases List.mem_cons.mp hx with hx | hx
          · subst hx
            refine ⟨hm, Nat.le_add_right 1 _, ?_⟩
            show 1 + occ (pyStrip n) ns ≤ occ (pyStrip n) (n :: ns)
            rw [occ_cons, if_pos ⟨rfl, hn⟩]
          · obtain ⟨hx1, hx2, hx3⟩ := h2 x hx
            refine ⟨fun hc => hx1 ?_, hx2, le_trans hx3 (occ_le_cons _ _ _)⟩
            rw [hb, keysOf_append]
            exact List.mem_append_left _ hc

/-! ### Stable-sort lemmas -/

theorem orderedInsert_append {α : Type} (r : α → α → Prop) [DecidableRel r] (a : α)
    (v : List α) (hv : ∀ b ∈ v, r a b) :
    ∀ u : List α, List.orderedInsert r a (u ++ v) = List.orderedInsert r a u ++ v := by
  intro u
  induction u with
  | nil =>
    cases v with
    | nil => rfl
    | cons b v' =>
      show List.orderedInsert r a (b :: v') = [a] ++ (b :: v')
      rw [List.orderedInsert, if_pos (hv b (List.mem_cons_self b v'))]
      rfl
  | cons c u' ih =>
    show List.orderedInsert r a (c :: (u' ++ v)) = List.orderedInsert r a (c :: u') ++ v
    rw [List.orderedInsert, List.orderedInsert]
    by_cases hc : r a c
    · rw [if_pos hc, if_pos hc]
      rfl
    · rw [if_neg hc, if_neg hc, List.cons_append, ih]

theorem insertionSort_append_of_dominated {α : Type} (r : α → α → Prop) [DecidableRel r]
    (l₁ l₂ : List α) (h : ∀ a ∈ l₁, ∀ b ∈ l₂, r a b) :
    List.insertionSort r (l₁ ++ l₂)
      = List.insertionSort r l₁ ++ List.insertionSort r l₂ := by
  induction l₁ with
  | nil => rfl
  | cons a l₁' ih =>
    show List.orderedInsert r a (List.insertionSort r (l₁' ++ l₂))
        = List.orderedInsert r a (List.insertionSort r l₁') ++ List.insertionSort r l₂
    rw [ih fun x hx b hb => h x (List.mem_cons_of_mem a hx) b hb]
    exact orderedInsert_append r a _
      (fun b hb => h a (List.mem_cons_self a l₁') b
        ((List.perm_insertionSort r l₂).subset hb)) _

theorem pairwise_take_drop {α : Type} {r : α → α → Prop} {l : List α}
    (hs : l.Pairwise r) (n : ℕ) :
    ∀ x ∈ l.take n, ∀ y ∈ l.drop n, r x y := by
  have hs2 : (l.take n ++ l.drop n).Pairwise r := by
    rw [List.take_append_drop]
    exact hs
  exact (List.pairwise_append.mp hs2).2.2

/-! ### `_inc_counts` invariants -/

theorem sortDescCount_perm (c : Counter) : (sortDescCount c).Perm c :=
  List.perm_insertionSort countDescLe c

theorem incCounts_keys_nodup (c : Counter) (ns : List String) (cap : ℕ)
    (hnd : (keysOf c).Nodup) : (keysOf (incCounts c ns cap)).Nodup := by
  have h1 : (keysOf (foldBump c ns)).Nodup := foldBump_keys_nodup ns c hnd
  have h2 : (keysOf (sortDescCount (foldBump c ns))).Nodup :=
    ((keysOf_perm (sortDescCount_perm (foldBump c ns))).nodup_iff).mpr h1
  exact List.Nodup.sublist
    ((List.take_sublist cap (sortDescCount (foldBump c ns))).map Prod.fst) h2

theorem lookupD_map_upd (c : Counter) (ns : List String) (k : String) (hk : k ∈ keysOf c) :
    lookupD (c.map fun e => (e.1, e.2 + occ e.1 ns)) k = lookupD c k + occ k ns := by
  induction c with
  | nil => simp [keysOf] at hk
  | cons a t ih =>
    obtain ⟨k0, v⟩ := a
    rw [keysOf_cons] at hk
    rw [List.map_cons]
    by_cases h0 : k0 = k
    · subst h0
      show (if k0 = k0 then v + occ k0 ns else _) = (if k0 = k0 then v else lookupD t k0) + _
      rw [if_pos rfl, if_pos rfl]
    · have hkt : k ∈ keysOf t := by
        rcases List.mem_cons.mp hk with h1 | h1
        · exact absurd h1.symm h0
        · exact h1
      show (if k0 = k then v + occ k0 ns else _) = (if k0 = k then v else lookupD t k) + _
      rw [if_neg h0, if_neg h0]
      exact ih hkt

theorem keysOf_map_upd (c : Counter) (ns : List String) :
    keysOf (c.map fun e => (e.1, e.2 + occ e.1 ns)) = keysOf c := by
  simp [keysOf]

/-- The central monotonicity fact behind the feedback-learner claim: applying
`_inc_counts` a second time with the same name list never decreases any
name's count relative to the first application's result (even though the
top-`cap` eviction may drop entries: an entry evicted by the first
application re-enters with a count no larger than any survivor's, so at the
second truncation all survivors still precede all re-entrants). -/
theorem incCounts_mono (c : Counter) (ns : List String) (cap : ℕ)
    (hnd : (keysOf c).Nodup) (k : String) :
    lookupD (incCounts c ns cap) k ≤ lookupD (incCounts (incCounts c ns cap) ns cap) k := by
  by_cases hmem : k ∈ keysOf (incCounts c ns cap)
  case neg =>
    rw [lookupD_eq_zero_of_not_mem _ k hmem]
    exact Nat.zero_le _
  case pos =>
    set c1 := incCounts c ns cap with hc1
    have hnd1 : (keysOf c1).Nodup := incCounts_keys_nodup c ns cap hnd
    have hlen1 : c1.length ≤ cap := by
      rw [hc1, incCounts, List.length_take]
      exact min_le_left _ _
    obtain ⟨t, hsplit, ht⟩ := foldBump_split ns c1 hnd1
    have hndm : (keysOf (c1.map fun e => (e.1, e.2 + occ e.1 ns))).Nodup := by
      rw [keysOf_map_upd]
      exact hnd1
    cases t with
    | nil =>
      -- no re-entrants: the second pass's list fits under the cap entirely
      rw [List.append_nil] at hsplit
      have hlen2 : (sortDescCount (foldBump c1 ns)).length ≤ cap := by
        rw [sortDescCount, List.length_insertionSort, hsplit, List.length_map]
        exact hlen1
      have hfull : incCounts c1 ns cap = sortDescCount (foldBump c1 ns) := by
        rw [incCounts]
        exact List.take_of_length_le hlen2
      rw [hfull]
      have hndu : (keysOf (foldBump c1 ns)).Nodup := foldBump_keys_nodup ns c1 hnd1
      rw [lookupD_perm (sortDescCount (foldBump c1 ns)) (foldBump c1 ns) k
        (sortDescCount_perm _)
        (((keysOf_perm (sortDescCount_perm (foldBump c1 ns))).nodup_iff).mpr hndu)]
      rw [foldBump_lookup]
      exact Nat.le_add_right _ _
    | cons x0 t0 =>
      -- any entry of `t` was evicted by the first application's truncation
      have hz : ∀ z ∈ (x0 :: t0), z.1 ∈ keysOf (foldBump c ns) ∧
          z.2 ≤ lookupD (foldBump c ns) z.1 := by
        intro z hzmem
        obtain ⟨hz1, hz2, hz3⟩ := ht z hzmem
        have hlz : lookupD (foldBump c ns) z.1 = lookupD c z.1 + occ z.1 ns :=
          foldBump_lookup ns c z.1
        constructor
        · by_contra hnot
          rw [lookupD_eq_zero_of_not_mem _ _ hnot] at hlz
          omega
        · omega
      -- the first truncation really dropped something, so `c1` is full
      have hx0 := hz x0 (List.mem_cons_self x0 t0)
      have hx0k : x0.1 ∈ keysOf (sortDescCount (foldBump c ns)) :=
        ((keysOf_perm (sortDescCount_perm (foldBump c ns))).mem_iff).mpr hx0.1
      have hnotfull : ¬(sortDescCount (foldBump c ns)).length ≤ cap := by
        intro hle
        have : c1 = sortDescCount (foldBump c ns) := by
          rw [hc1, incCounts]
          exact List.take_of_length_le hle
        exact (ht x0 (List.mem_cons_self x0 t0)).1 (this ▸ hx0k)
      have hc1full : c1.length = cap := by
        rw [hc1, incCounts, List.length_take]
        omega
      -- the sorted first-pass list splits at the cap; survivors dominate drops
      have hsorted1 : (sortDescCount (foldBump c ns)).Pairwise countDescLe :=
        List.sorted_insertionSort countDescLe (foldBump c ns)
      have hdom : ∀ a ∈ (c1.map fun e => (e.1, e.2 + occ e.1 ns)),
          ∀ b ∈ (x0 :: t0), countDescLe a b := by
        intro a ha b hb
        obtain ⟨e0, he0, rfl⟩ := List.mem_map.mp ha
        obtain ⟨hb1, hb2, hb3⟩ := ht b hb
        obtain ⟨hbk, hbv⟩ := hz b hb
        have hbpair : (b.1, lookupD (foldBump c ns) b.1) ∈ sortDescCount (foldBump c ns) :=
          ((sortDescCount_perm (foldBump c ns)).mem_iff).mpr
            (lookupD_mem _ _ hbk)
        have hbdrop : (b.1, lookupD (foldBump c ns) b.1)
            ∈ (sortDescCount (foldBump c ns)).drop cap := by
          have hsplit2 := List.take_append_drop cap (sortDescCount (foldBump c ns))
          rw [← hsplit2] at hbpair
          rcases List.mem_append.mp hbpair with hmem2 | hmem2
          · exact absurd (mem_keysOf_of_mem hmem2) hb1
          · exact hmem2
        have he0take : e0 ∈ (sortDescCount (foldBump c ns)).take cap := he0
        have hrel := pairwise_take_drop hsorted1 cap e0 he0take _ hbdrop
        show b.2 ≤ e0.2 + occ e0.1 ns
        have : lookupD (foldBump c ns) b.1 ≤ e0.2 := hrel
        omega
      -- at the second truncation exactly the survivors remain
      have hsort2 : sortDescCount (foldBump c1 ns)
          = sortDescCount (c1.map fun e => (e.1, e.2 + occ e.1 ns))
            ++ sortDescCount (x0 :: t0) := by
        rw [hsplit]
        exact insertionSort_append_of_dominated countDescLe _ _ hdom
      have hlenm : (sortDescCount (c1.map fun e => (e.1, e.2 + occ e.1 ns))).length
          = cap := by
        rw [sortDescCount, List.length_insertionSort, List.length_map]
        exact hc1full
      have htrunc : incCounts c1 ns cap
          = sortDescCount (c1.map fun e => (e.1, e.2 + occ e.1 ns)) := by
        rw [incCounts, hsort2, ← hlenm]
        exact List.take_left _ _
      rw [htrunc]
      rw [lookupD_perm _ (c1.map fun e => (e.1, e.2 + occ e.1 ns)) k
        (sortDescCount_perm _)
        (((keysOf_perm (sortDescCount_perm _)).nodup_iff).mpr hndm)]
      rw [lookupD_map_upd c1 ns k hmem]
      exact Nat.le_add_right _ _

theorem deriveFromItems_kept (mem : MemoryPayload) (keptItems rejectedItems : List String)
    (inv : Option (List RProduct)) :
    (deriveFromItems mem keptItems rejectedItems inv).kept_items
      = incCounts mem.kept_items
          (keptItems.filterMap fun k => if pyStrip k = "" then none else some (pyStrip k))
          80 := by
  unfold deriveFromItems
  cases inv with
  | none => rfl
  | some l =>
    dsimp only
    split <;> split <;> rfl

theorem deriveFromItems_rejected (mem : MemoryPayload)
    (keptItems rejectedItems : List String) (inv : Option (List RProduct)) :
    (deriveFromItems mem keptItems rejectedItems inv).rejected_items
      = incCounts mem.rejected_items
          (rejectedItems.filterMap fun r => if pyStrip r = "" then none else some (pyStrip r))
          80 := by
  unfold deriveFromItems
  cases inv with
  | none => rfl
  | some l =>
    dsimp only
    split <;> split <;> rfl

/-- C9: applying the feedback learner twice with the same kept/rejected item
lists on the same starting memory yields kept and rejected counts that are
monotonically non-decreasing for each item name from the first application's
result to the second's. -/
theorem deriveFromItems_counts_monotone
    (mem : MemoryPayload) (kept rejected : List String) (inv : Option (List RProduct))
    (hk : (keysOf mem.kept_items).Nodup) (hr : (keysOf mem.rejected_items).Nodup)
    (name : String) :
    lookupD (deriveFromItems mem kept rejected inv).kept_items name
      ≤ lookupD (deriveFromItems (deriveFromItems mem kept rejected inv)
          kept rejected inv).kept_items name ∧
    lookupD (deriveFromItems mem kept rejected inv).rejected_items name
      ≤ lookupD (deriveFromItems (deriveFromItems mem kept rejected inv)
          kept rejected inv).rejected_items name := by
  constructor
  · rw [deriveFromItems_kept (deriveFromItems mem kept rejected inv) kept rejected inv,
      deriveFromItems_kept mem kept rejected inv]
    exact incCounts_mono mem.kept_items _ 80 hk name
  · rw [deriveFromItems_rejected (deriveFromItems mem kept rejected inv) kept rejected inv,
      deriveFromItems_rejected mem kept rejected inv]
    exact incCounts_mono mem.rejected_items _ 80 hr name

/-- Witness for C9 on the default memory payload and concrete feedback
lists (a kept item fed twice, a rejected item once). -/
theorem deriveFromItems_counts_monotone_witness :
    lookupD (deriveFromItems DEFAULT_POLICY_MEM ["Desk Pad", "Desk Pad"]
        ["RGB Strip"] none).kept_items "Desk Pad"
      ≤ lookupD (deriveFromItems (deriveFromItems DEFAULT_POLICY_MEM
          ["Desk Pad", "Desk Pad"] ["RGB Strip"] none)
          ["Desk Pad", "Desk Pad"] ["RGB Strip"] none).kept_items "Desk Pad" ∧
    lookupD (deriveFromItems DEFAULT_POLICY_MEM ["Desk Pad", "Desk Pad"]
        ["RGB Strip"] none).rejected_items "RGB Strip"
      ≤ lookupD (deriveFromItems (deriveFromItems DEFAULT_POLICY_MEM
          ["Desk Pad", "Desk Pad"] ["RGB Strip"] none)
          ["Desk Pad", "Desk Pad"] ["RGB Strip"] none).rejected_items "RGB Strip" := by
  have h1 := deriveFromItems_counts_monotone DEFAULT_POLICY_MEM
    ["Desk Pad", "Desk Pad"] ["RGB Strip"] none (by decide) (by decide) "Desk Pad"
  have h2 := deriveFromItems_counts_monotone DEFAULT_POLICY_MEM
    ["Desk Pad", "Desk Pad"] ["RGB Strip"] none (by decide) (by decide) "RGB Strip"
  exact ⟨h1.1, h2.2⟩
